import Mathlib

/-!
Verification of the MTL tag-classification engine (`step3_convert.py`,
`patterns.py`, `converters/tag_classifier.py`, `converters/mtl_builder.py`).

Strings are shallowly embedded as `List Char`; every Python regular
expression used by the classifier is embedded as an explicit, executable
character-list scanner that mimics the (deterministic) backtracking
behaviour of `re` on the concrete pattern at hand.

Two pipeline variants exist in the repository:
  * the "enhanced" one (`step3_convert.py`, wired into `run_all.py`), and
  * the "merged v2" one (`converters/mtl_builder.py` + `tag_classifier.py`).
Both are embedded below (`process_io_to_mtl` and `process_io_to_mtl_merged`).
-/

namespace CrcMtl

/-- Strings are modelled as lists of characters. -/
abbrev Str := List Char

/-- ASCII upper-casing of one character (Python `str.upper` on ASCII input). -/
def upc (c : Char) : Char :=
  if 'a' ≤ c ∧ c ≤ 'z' then Char.ofNat (c.toNat - 32) else c

/-- ASCII lower-casing of one character (Python `str.lower` on ASCII input). -/
def lowc (c : Char) : Char :=
  if 'A' ≤ c ∧ c ≤ 'Z' then Char.ofNat (c.toNat + 32) else c

def upper (s : Str) : Str := s.map upc

def lowerStr (s : Str) : Str := s.map lowc

/-- Python regex word character (`\w` restricted to ASCII): `[A-Za-z0-9_]`. -/
def isWordChar (c : Char) : Bool := c.isAlpha || c.isDigit || c == '_'

/-- Python regex whitespace `\s`: space, tab, newline, CR, VT, FF. -/
def isSpaceB (c : Char) : Bool :=
  c == ' ' || c == '\t' || c == '\n' || c == '\r' ||
  c == Char.ofNat 11 || c == Char.ofNat 12

/-- Python `pat in s` substring test. -/
def containsSub (pat : Str) : Str → Bool
  | [] => pat.isEmpty
  | c :: rest => pat.isPrefixOf (c :: rest) || containsSub pat rest

/-- Consume a literal (case sensitive); return the remainder on success. -/
def eatLit : Str → Str → Option Str
  | [], s => some s
  | _, [] => none
  | p :: ps, c :: cs => if p = c then eatLit ps cs else none

/-- Consume a literal case-insensitively; return the remainder on success. -/
def eatCI : Str → Str → Option Str
  | [], s => some s
  | _, [] => none
  | p :: ps, c :: cs => if upc p = upc c then eatCI ps cs else none

/-- Greedy `\s*`. -/
def skipWs (s : Str) : Str := s.dropWhile isSpaceB

/-- Greedy `\s+`. -/
def eatWs1 : Str → Option Str
  | c :: cs => if isSpaceB c then some (skipWs cs) else none
  | [] => none

/-- Greedy `\d+`. -/
def eatDigits1 : Str → Option Str
  | c :: cs => if c.isDigit then some (cs.dropWhile Char.isDigit) else none
  | [] => none

/-- Greedy `\d+`, returning the captured digits as well. -/
def spanDigits1 : Str → Option (Str × Str)
  | c :: cs =>
    if c.isDigit then some (c :: cs.takeWhile Char.isDigit, cs.dropWhile Char.isDigit)
    else none
  | [] => none

/-- Capture a maximal run satisfying `p` (possibly empty). -/
def spanP (p : Char → Bool) (s : Str) : Str × Str := (s.takeWhile p, s.dropWhile p)

/-- Python `str.strip()`. -/
def stripWs (s : Str) : Str :=
  ((s.dropWhile isSpaceB).reverse.dropWhile isSpaceB).reverse

/-- Python `str.replace(pat, repl)` for a non-empty pattern
    (all non-overlapping occurrences, left to right).  The recursion is
    driven by a fuel counter so that it is structural; every step consumes
    at least one character of the remaining text, so `fuel = s.length` never
    runs out and the `fuel = 0` branch (reached only on empty text) agrees
    with the recursive base case. -/
def replaceFuel (pat repl : Str) : Nat → Str → Str
  | 0, _ => []
  | _ + 1, [] => []
  | fuel + 1, c :: rest =>
    if pat.isPrefixOf (c :: rest) then
      repl ++ replaceFuel pat repl fuel (rest.drop (pat.length - 1))
    else
      c :: replaceFuel pat repl fuel rest

def replaceSub (pat repl : Str) (s : Str) : Str :=
  match pat with
  | [] => s
  | _ :: _ => replaceFuel pat repl s.length s

/-- A regex word boundary `\b` test on the left of the current position:
    the previous character (`none` at the start of the string) is not a
    word character. -/
def boundaryBefore : Option Char → Bool
  | none => true
  | some c => !isWordChar c

/-- A regex word boundary `\b` test on the right: the next character
    (if any) is not a word character. -/
def boundaryAfter : Str → Bool
  | [] => true
  | c :: _ => !isWordChar c

/-- `re.sub` engine: scan left to right; `m prev suffix` reports how many
    characters a match starting at this position consumes (`≥ 1`), given the
    previous original character for `\b` tests; matched spans are replaced by
    `repl`, scanning resumes after the match (on the original text).  The
    recursion is driven by a fuel counter so that it is structural; every
    step consumes at least one character, so `fuel = s.length` never runs
    out and the `fuel = 0` branch (reached only on empty text) agrees with
    the recursive base case. -/
def subScanAux (m : Option Char → Str → Option Nat) (repl : Str) :
    Nat → Option Char → Str → Str
  | 0, _, _ => []
  | _ + 1, _, [] => []
  | fuel + 1, prev, c :: rest =>
    match m prev (c :: rest) with
    | some (Nat.succ k) =>
      repl ++ subScanAux m repl fuel (some ((c :: rest).getD k c)) (rest.drop k)
    | _ => c :: subScanAux m repl fuel (some c) rest

def subScan (m : Option Char → Str → Option Nat) (repl : Str) (s : Str) : Str :=
  subScanAux m repl s.length none s

/-- Matcher for `\bWORD\b` (case-insensitive); `w` must be non-empty. -/
def wordAtCI (w : Str) (prev : Option Char) (s : Str) : Option Nat :=
  if boundaryBefore prev then
    match eatCI w s with
    | some rest => if boundaryAfter rest then some w.length else none
    | none => none
  else none

/-- `re.sub(r'\bWORD\b', repl, s, flags=re.IGNORECASE)`. -/
def replaceWordCI (w repl : Str) (s : Str) : Str := subScan (wordAtCI w) repl s

/-- Matcher for a word-bounded alternation `\b(?:w1|w2|...)\b`
    (case-insensitive), alternatives tried in order. -/
def altWordAtCI (ws : List Str) (prev : Option Char) (s : Str) : Option Nat :=
  if boundaryBefore prev then
    ws.firstM (fun w =>
      match eatCI w s with
      | some rest => if boundaryAfter rest then some w.length else none
      | none => none)
  else none

/-- Remove everything from the leftmost position whose suffix satisfies `m`
    (used for `re.sub` with an `$`-anchored pattern and empty replacement). -/
def truncAtFirst (m : Str → Bool) : Str → Str
  | [] => []
  | c :: rest => if m (c :: rest) then [] else c :: truncAtFirst m rest

/-- First position index (if any) at which `m` matches, scanning left to
    right with the previous character available (regex `re.search` order). -/
def searchPos (m : Option Char → Str → Bool) : Option Char → Str → Bool
  | prev, [] => m prev []
  | prev, c :: rest => m prev (c :: rest) || searchPos m (some c) rest

def searchB (m : Option Char → Str → Bool) (s : Str) : Bool := searchPos m none s

/-- `re.search` for a matcher that does not need boundary context. -/
def searchNB (m : Str → Bool) (s : Str) : Bool := searchB (fun _ t => m t) s

/-- Leftmost `re.search` returning a captured value. -/
def searchCapAux (m : Option Char → Str → Option α) : Option Char → Str → Option α
  | prev, [] => m prev []
  | prev, c :: rest =>
    match m prev (c :: rest) with
    | some v => some v
    | none => searchCapAux m (some c) rest

def searchCap (m : Option Char → Str → Option α) (s : Str) : Option α :=
  searchCapAux m none s

/-- Python `s.split('-')[0]` (prefix before the first occurrence of `sep`;
    the whole string if `sep` does not occur). -/
def beforeFirst (sep : Char) (s : Str) : Str := s.takeWhile (· ≠ sep)

/-- Python `s.split(sep, 1)`: `none` when `sep` does not occur, otherwise
    the parts before and after the first occurrence. -/
def splitOnce (sep : Char) : Str → Option (Str × Str)
  | [] => none
  | c :: rest =>
    if c = sep then some ([], rest)
    else (splitOnce sep rest).map (fun p => (c :: p.1, p.2))

/-- Python `sep in s` for a single character. -/
def hasChar (sep : Char) (s : Str) : Bool := s.contains sep

/-! ## Static tables (`patterns.py`, active definitions) -/

/-- Entry of `ALARM_PATTERNS` / `SWITCH_PATTERNS`: `{type, description, order}`. -/
structure PatInfo where
  type_ : Str
  descr : Str
  order : Nat
  deriving DecidableEq, Repr

def mkPat (name ty de : String) (ord : Nat) : Str × PatInfo :=
  (name.data, ⟨ty.data, de.data, ord⟩)

/-- `ALARM_PATTERNS` (insertion order of the Python dict). -/
def ALARM_PATTERNS : List (Str × PatInfo) := [
  mkPat "PAHH" "Pressure" "High High Alarm" 1,
  mkPat "PAH" "Pressure" "High Alarm" 2,
  mkPat "PAL" "Pressure" "Low Alarm" 3,
  mkPat "PALL" "Pressure" "Low Low Alarm" 4,
  mkPat "PDAHH" "Differential Pressure" "High High Alarm" 1,
  mkPat "PDAH" "Differential Pressure" "High Alarm" 2,
  mkPat "PDAL" "Differential Pressure" "Low Alarm" 3,
  mkPat "PDALL" "Differential Pressure" "Low Low Alarm" 4,
  mkPat "LAHH" "Level" "High High Alarm" 1,
  mkPat "LAH" "Level" "High Alarm" 2,
  mkPat "LAL" "Level" "Low Alarm" 3,
  mkPat "LALL" "Level" "Low Low Alarm" 4,
  mkPat "LXAHH" "Interface Level" "High High Alarm" 1,
  mkPat "LXAH" "Interface Level" "High Alarm" 2,
  mkPat "LXAL" "Interface Level" "Low Alarm" 3,
  mkPat "LXALL" "Interface Level" "Low Low Alarm" 4,
  mkPat "TAHH" "Temperature" "High High Alarm" 1,
  mkPat "TAH" "Temperature" "High Alarm" 2,
  mkPat "TAL" "Temperature" "Low Alarm" 3,
  mkPat "TALL" "Temperature" "Low Low Alarm" 4,
  mkPat "FAHH" "Flow" "High High Alarm" 1,
  mkPat "FAH" "Flow" "High Alarm" 2,
  mkPat "FAL" "Flow" "Low Alarm" 3,
  mkPat "FALL" "Flow" "Low Low Alarm" 4,
  mkPat "VAHH" "Vibration" "High High Alarm" 1,
  mkPat "VAH" "Vibration" "High Alarm" 2,
  mkPat "VAL" "Vibration" "Low Alarm" 3,
  mkPat "VALL" "Vibration" "Low Low Alarm" 4,
  mkPat "AAHH" "Analysis" "High High Alarm" 1,
  mkPat "AAH" "Analysis" "High Alarm" 2,
  mkPat "AAL" "Analysis" "Low Alarm" 3,
  mkPat "AALL" "Analysis" "Low Low Alarm" 4]

/-- `SWITCH_PATTERNS` (insertion order of the Python dict). -/
def SWITCH_PATTERNS : List (Str × PatInfo) := [
  mkPat "LSHH" "Level" "Switch" 1,
  mkPat "LSH" "Level" "Switch" 2,
  mkPat "LSL" "Level" "Switch" 3,
  mkPat "LSLL" "Level" "Switch" 4,
  mkPat "LXSHH" "Interface Level" "Switch" 1,
  mkPat "LXSH" "Interface Level" "Switch" 2,
  mkPat "LXSL" "Interface Level" "Switch" 3,
  mkPat "LXSLL" "Interface Level" "Switch" 4,
  mkPat "PSHH" "Pressure" "Switch" 1,
  mkPat "PSH" "Pressure" "Switch" 2,
  mkPat "PSL" "Pressure" "Switch" 3,
  mkPat "PSLL" "Pressure" "Switch" 4,
  mkPat "PDSHH" "Differential Pressure" "Switch" 1,
  mkPat "PDSH" "Differential Pressure" "Switch" 2,
  mkPat "PDSL" "Differential Pressure" "Switch" 3,
  mkPat "PDSLL" "Differential Pressure" "Switch" 4,
  mkPat "TSHH" "Temperature" "Switch" 1,
  mkPat "TSH" "Temperature" "Switch" 2,
  mkPat "TSL" "Temperature" "Switch" 3,
  mkPat "TSLL" "Temperature" "Switch" 4,
  mkPat "FSHH" "Flow" "Switch" 1,
  mkPat "FSH" "Flow" "Switch" 2,
  mkPat "FSL" "Flow" "Switch" 3,
  mkPat "FSLL" "Flow" "Switch" 4,
  mkPat "VSHH" "Vibration" "Switch" 1,
  mkPat "VSH" "Vibration" "Switch" 2,
  mkPat "VSL" "Vibration" "Switch" 3,
  mkPat "VSLL" "Vibration" "Switch" 4]

def mkKV (k v : String) : Str × Str := (k.data, v.data)

/-- `TRANSMITTER_PATTERNS` (dict insertion order). -/
def TRANSMITTER_PATTERNS : List (Str × Str) := [
  mkKV "PIT" "Pressure", mkKV "LIT" "Level", mkKV "LXIT" "Interface Level",
  mkKV "TIT" "Temperature", mkKV "FIT" "Flow", mkKV "AT" "Analysis",
  mkKV "AIT" "Analysis", mkKV "DPIT" "Differential Pressure",
  mkKV "PDIT" "Differential Pressure", mkKV "VIT" "Vibration",
  mkKV "DIT" "Density"]

/-- `CONTROLLER_PATTERNS`. -/
def CONTROLLER_PATTERNS : List (Str × Str) := [
  mkKV "PIC" "Pressure", mkKV "LIC" "Level", mkKV "LXIC" "Interface Level",
  mkKV "TIC" "Temperature", mkKV "FIC" "Flow", mkKV "VIC" "Vibration"]

/-- `VALVE_PATTERNS`. -/
def VALVE_PATTERNS : List (Str × Str) := [
  mkKV "PCV" "Pressure Control Valve", mkKV "LCV" "Level Control Valve",
  mkKV "LXCV" "Interface Level Control Valve",
  mkKV "TCV" "Temperature Control Valve", mkKV "FCV" "Flow Control Valve",
  mkKV "PY" "Pressure Control Valve", mkKV "LY" "Level Control Valve",
  mkKV "LXY" "Interface Level Control Valve",
  mkKV "TY" "Temperature Control Valve", mkKV "FY" "Flow Control Valve",
  mkKV "XV" "Shutoff Valve", mkKV "PV" "Pressure Valve",
  mkKV "LV" "Level Valve", mkKV "TV" "Temperature Valve",
  mkKV "FV" "Flow Valve"]

/-- `VALVE_SWITCH_PATTERNS`. -/
def VALVE_SWITCH_PATTERNS : List (Str × Str) := [
  mkKV "ZSO" "Open Switch Status", mkKV "ZSC" "Closed Switch Status",
  mkKV "ZIO" "Open Switch Status", mkKV "ZIC" "Closed Switch Status",
  mkKV "XSO" "Open Switch Status", mkKV "XSC" "Closed Switch Status",
  mkKV "XIO" "Open Switch Status", mkKV "XIC" "Closed Switch Status"]

/-- Keys of `INSTRUMENT_INITIATING_VARIABLES` (dict insertion order). -/
def INSTRUMENT_IV_KEYS : List Str :=
  ["P", "F", "V", "T", "L", "DP", "PD", "A"].map String.data

def RUN_STATUS_TRIGGERS : List Str :=
  ["Run Status", "RUN_STATUS", "AUX", "Running Indication",
   "RUNNING", "XI", "MOTOR_RUNNING"].map String.data

def AUTO_STATUS_TRIGGERS : List Str :=
  ["Auto Status", "AUTO_STATUS", "AUTO", "HOA", "HS"].map String.data

def RUN_COMMAND_TRIGGERS : List Str :=
  ["Run Command", "RUN_COMMAND", "Output", "Relay",
   "START", "XS", "XC", "CR", "MOTOR_RUN_BIT"].map String.data

def MOTOR_EQUIPMENT_WORDS : List Str :=
  ["PUMP", "FAN", "COMPRESSOR", "MOTOR", "BLOWER"].map String.data

/-- Values of `MOTOR_KEYWORD_TO_PREFIX` (dict insertion order; the code only
    uses `.values()`). -/
def MOTOR_KEYWORD_TO_CODE_VALUES : List Str :=
  ["K", "P", "E", "B", "M"].map String.data

def PRESERVE_CAPS_WORDS : List Str :=
  ["ESD", "PLC", "BOP", "IR", "UV", "VFD", "LEL", "MPR", "HOA", "JOA",
   "SD", "TEG"].map String.data

/-- `ALARM_TO_TRANSMITTER`. -/
def ALARM_TO_TRANSMITTER : List (Str × Str) := [
  mkKV "P" "PIT", mkKV "T" "TIT", mkKV "L" "LIT", mkKV "F" "FIT",
  mkKV "A" "AIT", mkKV "D" "DIT", mkKV "V" "VIT"]

/-- `TWO_LETTER_TRANSMITTER_PREFIXES` (source name kept modulo the last
    word, which the proof environment reserves). -/
def TWO_LETTER_TRANSMITTER_CODES : List (Str × Str) := [
  mkKV "PT" "PIT", mkKV "PI" "PIT",
  mkKV "LT" "LIT", mkKV "LI" "LIT",
  mkKV "TT" "TIT", mkKV "TI" "TIT",
  mkKV "FT" "FIT", mkKV "FI" "FIT",
  mkKV "VT" "VIT", mkKV "VI" "VIT",
  mkKV "AT" "AIT", mkKV "DT" "DIT"]

def VALVE_Y_TO_V : List (Str × Str) := [
  mkKV "LY" "LV", mkKV "PY" "PV", mkKV "TY" "TV", mkKV "FY" "FV",
  mkKV "XY" "XV", mkKV "LXY" "LXV"]

def VALVE_SWITCH_TO_XV : List Str :=
  ["ZSO", "ZSC", "ZIO", "ZIC", "XSO", "XSC", "XIO", "XIC"].map String.data

/-- `ABBREVIATIONS` (`\bWORD\b` → replacement, applied in dict order,
    case-insensitively). Only the bare word of each regex is stored. -/
def ABBREVIATIONS : List (Str × Str) := [
  mkKV "DISC" "Discharge", mkKV "SUCT" "Suction",
  mkKV "RETURN" "Return", mkKV "RECYCLE" "Recycle",
  mkKV "INLET" "Inlet", mkKV "OUTLET" "Outlet",
  mkKV "LP" "Low Pressure", mkKV "HP" "High Pressure",
  mkKV "MP" "Medium Pressure",
  mkKV "XMTR" "Transmitter", mkKV "XDUCER" "Transducer",
  mkKV "INDIC" "Indication", mkKV "CTRL" "Control",
  mkKV "SIG" "Signal", mkKV "SEP" "Separator",
  mkKV "SEPERATOR" "Separator", mkKV "VESS" "Vessel",
  mkKV "TNK" "Tank", mkKV "PMP" "Pump", mkKV "PMPS" "Pumps",
  mkKV "VLV" "Valve", mkKV "VLVS" "Valves",
  mkKV "WTR" "Water", mkKV "WW" "Waste Water",
  mkKV "INTERF" "Interface", mkKV "OVERALL" "Overall",
  mkKV "MANU" "Manual", mkKV "LVL" "Level",
  mkKV "TEMP" "Temperature", mkKV "PRESS" "Pressure",
  mkKV "FLOW" "Flow", mkKV "NORM" "Normal",
  mkKV "EMERG" "Emergency", mkKV "STDBY" "Standby",
  mkKV "ALM" "Alarm", mkKV "SHUT" "Shutdown",
  mkKV "OPER" "Operation", mkKV "COMMON" "Common",
  mkKV "PRI" "Primary", mkKV "SEC" "Secondary",
  mkKV "AUX" "Auxiliary", mkKV "Comp" "Compressor"]

def PRESERVED_ACRONYMS : List Str :=
  ["PIT", "LIT", "TIT", "FIT", "LXIT", "VIT", "AIT", "DPIT", "PDIT",
   "PIC", "LIC", "TIC", "FIC", "LXIC",
   "PY", "LY", "TY", "FY", "LXY",
   "PCV", "LCV", "TCV", "FCV",
   "IO", "ID", "PLC", "VFD", "PID", "VSD",
   "HMI", "SCADA", "RTU",
   "AI", "AO", "DI", "DO",
   "API", "ANSI", "ISA",
   "Hz", "kW", "MW", "GW",
   "PSI", "PSIG", "PSIA", "BARG", "BARA",
   "BBL", "BBLS", "MCF", "MCFD", "MMCFD", "MSCF", "MSCFD",
   "GPM", "BPD", "ACFM",
   "AC", "DC", "ESD", "BOP", "IR", "UV", "LEL", "MPR", "HOA",
   "TEG"].map String.data

/-- `CLASSIFICATION_KEYWORDS`: bucket names already rendered the way
    `identify_tag_type` does (`.replace('_',' ').title()`), with their
    keyword lists, in dict insertion order. -/
def CLASSIFICATION_KEYWORDS : List (Str × List Str) := [
  ("spare".data, ["SPARE", "UNUSED", "RESERVED"].map String.data),
  ("indication".data,
    ["SPEED", "CURRENT", "VOLTAGE", "FREQUENCY", "Hz", "AMP", "AMPS"].map String.data),
  ("control_signal".data, ["CTRL", "CONTROL SIGNAL"].map String.data),
  ("selection".data, ["SELECTION", "SELECT", "MODE", "CHOOSE"].map String.data),
  ("display".data, ["DISPLAY", "TEXT", "MESSAGE", "SHOW"].map String.data),
  ("vfd_fault".data,
    ["VFD FAULT", "VSD FAULT", "VFD FAIL", "VSD FAIL"].map String.data),
  ("transmitter_fail".data,
    ["TRANSMITTER FAIL", "XMTR FAIL", "TRANSMITTER FAULT"].map String.data),
  ("permissive".data, ["PERMISSIVE"].map String.data)]

/-- `TRANSMITTER_PREFIXES` (the list used for tag extraction; source name
    kept modulo the last word, which the proof environment reserves). -/
def TRANSMITTER_CODES : List Str :=
  ["PDIT", "DPIT", "LXIT", "LXI", "PIT", "PI", "FIT", "FI", "TIT", "TI",
   "LIT", "LI", "VIT", "VI", "AIT", "AT", "FCU", "TE"].map String.data

/-- `VALID_TARGET_NAMES` (the active, enhanced list in `patterns.py`). -/
def VALID_TARGET_NAMES : List Str :=
  ["High High Alarm", "High Alarm", "Low Alarm", "Low Low Alarm", "Alarm",
   "Process Value", "Rate", "Analog Input", "Digital Input", "Input",
   "Day 0 Volume", "Day 1 Volume",
   "Control Signal", "Control Output", "Analog Output", "Digital Output",
   "Output Command",
   "High High Alarm Setpoint", "High Alarm Setpoint", "Low Alarm Setpoint",
   "Low Low Alarm Setpoint", "Setpoint", "Process Value Setpoint",
   "Control Setpoint", "PV Min", "PV Max",
   "Switch", "High Switch", "Low Switch",
   "Control Valve", "Pressure Control Valve", "Level Control Valve",
   "Temperature Control Valve", "Flow Control Valve",
   "Interface Level Control Valve",
   "Open Switch Status", "Closed Switch Status", "Switch Status",
   "Shutoff Valve",
   "Run Status", "Run Command", "Auto Status", "VFD Fault Status",
   "Status", "Indication", "Running Status", "Fault Status",
   "Hand/Off/Auto Status", "Permissive Status",
   "High High Alarm Delay", "High Alarm Delay", "Low Alarm Delay",
   "Low Low Alarm Delay", "Alarm Delay",
   "PID Setpoint", "PID Process Variable", "PID Control Variable",
   "PID Output", "PID Manual Output", "PID Auto/Manual Mode",
   "Selection", "Mode",
   "Transmitter Fail",
   "Spare", "Display", "UNCLASSIFIED"].map String.data

def IO_SUFFIXES : List Str := ["!RD", "!WR", "!SC"].map String.data

/-! ## Configuration flags (`config.py`) -/

def EXPAND_ABBREVIATIONS : Bool := true
def APPLY_CAPITALIZATION : Bool := true
def PRESERVE_ACRONYMS : Bool := true

/-! ## Text processing (`step3_convert.py`, from `description_formatter.py`) -/

def lookupStr (l : List (Str × Str)) (k : Str) : Option Str :=
  (l.find? (fun p => p.1 == k)).map (·.2)

theorem dropWhile_len_le {α} (p : α → Bool) :
    ∀ l : List α, (l.dropWhile p).length ≤ l.length
  | [] => Nat.le_refl _
  | c :: r => by
    simp only [List.dropWhile]
    split
    · exact Nat.le_succ_of_le (dropWhile_len_le p r)
    · exact Nat.le_refl _

/-- Python `str.split()`: split on whitespace runs, dropping empty parts.
    The recursion is driven by a fuel counter so that it is structural;
    every step consumes at least one character, so `fuel = s.length` never
    runs out and the `fuel = 0` branch (reached only on empty text) agrees
    with the recursive base case. -/
def splitWsTokensFuel : Nat → Str → List Str
  | 0, _ => []
  | _ + 1, [] => []
  | fuel + 1, c :: rest =>
    if isSpaceB c then splitWsTokensFuel fuel rest
    else
      (c :: rest.takeWhile (fun x => !isSpaceB x)) ::
        splitWsTokensFuel fuel (rest.dropWhile (fun x => !isSpaceB x))

def splitWsTokens (s : Str) : List Str := splitWsTokensFuel s.length s

/-- Python `str.split(sep)` keeping empty parts. -/
def splitOnAll (sep : Char) : Str → List Str
  | [] => [[]]
  | c :: rest =>
    if c = sep then [] :: splitOnAll sep rest
    else
      match splitOnAll sep rest with
      | t :: ts => (c :: t) :: ts
      | [] => [[c]]

/-- Python `str.strip(chars)`. -/
def stripChars (chars : List Char) (s : Str) : Str :=
  ((s.dropWhile (chars.contains ·)).reverse.dropWhile (chars.contains ·)).reverse

/-- The ordinal regex `^(1|2|3|4|5)(ST|ND|RD|TH)$` (IGNORECASE) of
    `to_proper_case`; on a match, group 1 + lower-cased group 2. -/
def ordinalCase (w : Str) : Option Str :=
  match w with
  | [d, a, b] =>
    if ['1', '2', '3', '4', '5'].contains d &&
       [['S','T'], ['N','D'], ['R','D'], ['T','H']].contains [upc a, upc b] then
      some [d, lowc a, lowc b]
    else none
  | _ => none

/-- `smart_cap` inside `to_proper_case`. -/
def smart_cap (word : Str) : Str :=
  let ws := upper (stripChars "()[]{}.,;:!?".data word)
  if PRESERVE_CAPS_WORDS.contains ws then upper word
  else
    match ordinalCase word with
    | some r => r
    | none =>
      if word.any Char.isDigit then word
      else
        match word.findIdx? Char.isAlpha with
        | none => word
        | some i =>
          word.take i ++ [upc (word.getD i ' ')] ++ lowerStr (word.drop (i + 1))

/-- `to_proper_case`. -/
def to_proper_case (text : Str) : Str :=
  if text = [] then [] else
  List.intercalate [' ']
    ((splitWsTokens (stripWs text)).map (fun tok =>
      List.intercalate ['-'] ((splitOnAll '-' tok).map smart_cap)))

/-- `expand_abbreviations` (every table entry is a `\bWORD\b` regex applied
    case-insensitively, in dict order). -/
def expand_abbreviations (text : Str) : Str :=
  if text = [] then text else
  if !EXPAND_ABBREVIATIONS then text else
  ABBREVIATIONS.foldl (fun acc p => replaceWordCI p.1 p.2 acc) text

/-- `capitalize_proper` (the `step3_convert.py` version). -/
def capitalize_proper (text : Str) : Str :=
  if text = [] then text else
  if !APPLY_CAPITALIZATION then text else
  let t := expand_abbreviations text
  let result := to_proper_case t
  if PRESERVE_ACRONYMS then
    PRESERVED_ACRONYMS.foldl (fun acc a => replaceWordCI a a acc) result
  else result

/-! ### `strip_scaling_range` -/

/-- `(?:\.\d+)?` after an integer part. -/
def eatFracOpt : Str → Str
  | '.' :: c :: rest =>
    if c.isDigit then rest.dropWhile Char.isDigit else '.' :: c :: rest
  | s => s

/-- `-?\d+(?:\.\d+)?`. -/
def eatNum : Str → Option Str
  | '-' :: rest => (eatDigits1 rest).map eatFracOpt
  | s => (eatDigits1 s).map eatFracOpt

def consumedLen (s : Str) (m : Str → Option Str) : Option Nat :=
  (m s).map (fun r => s.length - r.length)

/-- First alternative of a literal alternation that matches (CI),
    returning the remainder. -/
def tryAltsCI (alts : List Str) (s : Str) : Option Str :=
  alts.firstM (fun a => eatCI a s)

/-- `\s*\(\s*-?\d+(?:\.\d+)?\s*[-–]\s*-?\d+(?:\.\d+)?\s*[A-Za-z%]*\s*\)`. -/
def scalingParenRange (s : Str) : Option Str := do
  let s := skipWs s
  let s ← eatLit ['('] s
  let s := skipWs s
  let s ← eatNum s
  let s := skipWs s
  let s ← (match s with
           | c :: r => if c = '-' ∨ c = Char.ofNat 8211 then some r else none
           | [] => none)
  let s := skipWs s
  let s ← eatNum s
  let s := skipWs s
  let s := s.dropWhile (fun c => c.isAlpha || c == '%')
  let s := skipWs s
  eatLit [')'] s

/-- `\s*\(\s*(?:psig|ma|gpm|bpd|ips|degf|psid|%)\s*\)` (IGNORECASE). -/
def scalingParenUnit (s : Str) : Option Str := do
  let s := skipWs s
  let s ← eatLit ['('] s
  let s := skipWs s
  let s ← tryAltsCI
      (["psig", "ma", "gpm", "bpd", "ips", "degf", "psid", "%"].map String.data) s
  let s := skipWs s
  eatLit [')'] s

/-- Suffix predicate of `\s*-?\d+(?:\.\d+)?\s+(?:to|TO|To)\s+-?\d+(?:\.\d+)?(?:.*)?$`
    (IGNORECASE); the trailing `.*$` makes everything after the second number
    part of the match, so the sub truncates at the leftmost such position. -/
def scalingToRange (s : Str) : Bool :=
  (do
    let s := skipWs s
    let s ← eatNum s
    let s ← eatWs1 s
    let s ← eatCI "to".data s
    let s ← eatWs1 s
    let _ ← eatNum s
    pure ()).isSome

/-- `\bdegrees(?:\s+celsius)?\b` (IGNORECASE). -/
def degreesAt (prev : Option Char) (s : Str) : Option Nat :=
  if boundaryBefore prev then
    match eatCI "degrees".data s with
    | some rest =>
      let withCel : Option Nat := do
        let r ← eatWs1 rest
        let r2 ← eatCI "celsius".data r
        if boundaryAfter r2 then some (s.length - r2.length) else none
      match withCel with
      | some n => some n
      | none => if boundaryAfter rest then some (s.length - rest.length) else none
    | none => none
  else none

/-- `\s*\bTransmitter\b` (IGNORECASE). -/
def transmitterAt (prev : Option Char) (s : Str) : Option Nat :=
  let sp := s.takeWhile isSpaceB
  let rest := s.drop sp.length
  let bOK := if sp.isEmpty then boundaryBefore prev else true
  if bOK then
    match eatCI "Transmitter".data rest with
    | some r2 => if boundaryAfter r2 then some (s.length - r2.length) else none
    | none => none
  else none

/-- `\s+%(?:\s|$)` (replaced by a single space). -/
def pctAt (_ : Option Char) (s : Str) : Option Nat := do
  let r ← eatWs1 s
  let r ← eatLit ['%'] r
  match r with
  | [] => some s.length
  | c :: r2 => if isSpaceB c then some (s.length - r2.length) else none

/-- `\(\s*\)`. -/
def emptyParen (s : Str) : Option Str := do
  let s ← eatLit ['('] s
  let s := skipWs s
  eatLit [')'] s

/-- `\s{2,}` (replaced by a single space). -/
def multiWsAt (_ : Option Char) (s : Str) : Option Nat :=
  match s with
  | a :: b :: _ =>
    if isSpaceB a && isSpaceB b then some (s.takeWhile isSpaceB).length else none
  | _ => none

def collapseWs (s : Str) : Str :=
  subScan (fun _ t => (eatWs1 t).map (fun r => t.length - r.length)) [' '] s

/-- `strip_scaling_range`. -/
def strip_scaling_range (description : Str) : Str :=
  if description = [] then description else
  let c := subScan (fun _ s => consumedLen s scalingParenRange) [] description
  let c := subScan (fun _ s => consumedLen s scalingParenUnit) [] c
  let c := truncAtFirst scalingToRange c
  let c := subScan degreesAt [] c
  let c := subScan
      (altWordAtCI (["psig", "ma", "gpm", "bpd", "ips", "degf", "psid"].map String.data))
      [] c
  let c := subScan transmitterAt [] c
  let c := subScan pctAt [' '] c
  let c := subScan (fun _ s => consumedLen s emptyParen) [] c
  let c := subScan multiWsAt [' '] c
  stripWs c

/-! ### motor / valve / alarm description strippers -/

/-- `^[HX][ISC][-_]\s+` (IGNORECASE). -/
def motorPre1 (s : Str) : Option Str :=
  match s with
  | c0 :: c1 :: c2 :: rest =>
    if ['H','X'].contains (upc c0) && ['I','S','C'].contains (upc c1) &&
       (c2 = '-' ∨ c2 = '_') then eatWs1 rest
    else none
  | _ => none

/-- `^[HX][ISC]\s*[-_]\s+` (IGNORECASE). -/
def motorPre2 (s : Str) : Option Str :=
  match s with
  | c0 :: c1 :: rest =>
    if ['H','X'].contains (upc c0) && ['I','S','C'].contains (upc c1) then do
      let r := skipWs rest
      let r ← (match r with
               | c :: r2 => if c = '-' ∨ c = '_' then some r2 else none
               | [] => none)
      eatWs1 r
    else none
  | _ => none

/-- `^[HX][ISC][-_]?[A-Z]?\d+[A-Z]?\s+` (IGNORECASE). -/
def motorPre3 (s : Str) : Option Str :=
  match s with
  | c0 :: c1 :: rest =>
    if ['H','X'].contains (upc c0) && ['I','S','C'].contains (upc c1) then
      let r := match rest with
               | c :: r2 => if c = '-' ∨ c = '_' then r2 else rest
               | [] => rest
      let tryFrom (t : Str) : Option Str := do
        let (_, t) ← spanDigits1 t
        match t with
        | c :: t2 =>
          if c.isAlpha then
            match eatWs1 t2 with
            | some r => some r
            | none => eatWs1 (c :: t2)
          else eatWs1 (c :: t2)
        | [] => none
      match r with
      | c :: r2 =>
        if c.isAlpha then
          match tryFrom r2 with
          | some res => some res
          | none => tryFrom (c :: r2)
        else tryFrom (c :: r2)
      | [] => none
    else none
  | _ => none

def applyAnchored (m : Str → Option Str) (s : Str) : Str :=
  match m s with
  | some r => r
  | none => s

/-- `strip_motor_status_words`. -/
def strip_motor_status_words (description : Str) : Str :=
  if description = [] then description else
  let d := stripWs description
  let d := applyAnchored motorPre1 d
  let d := applyAnchored motorPre2 d
  let d := applyAnchored motorPre3 d
  let phrases : List Str :=
    ["Hand Switch In Auto", "Hand Switch In", "Hand Switch", "Status Switch",
     "Run Status Relay", "Run Status", "Auto Status", "Running Indication",
     "Run Indication", "Start Command", "Run Command",
     "Output Command"].map String.data
  let d := phrases.foldl (fun acc p => replaceWordCI p [] acc) d
  let allTriggers := AUTO_STATUS_TRIGGERS ++ RUN_STATUS_TRIGGERS ++ RUN_COMMAND_TRIGGERS
  let d := allTriggers.foldl (fun acc p => replaceWordCI p [] acc) d
  let residuals : List Str :=
    ["motor", "status", "relay", "indication", "switch", "command",
     "run"].map String.data
  let d := residuals.foldl (fun acc p => replaceWordCI p [] acc) d
  stripWs (collapseWs d)

/-- `^Z[ISO][OC][-_]?\d+\s*` (IGNORECASE). -/
def valvePre (s : Str) : Option Str :=
  match s with
  | c0 :: c1 :: c2 :: rest =>
    if upc c0 = 'Z' && ['I','S','O'].contains (upc c1) &&
       ['O','C'].contains (upc c2) then
      let r := match rest with
               | c :: r2 => if c = '-' ∨ c = '_' then r2 else rest
               | [] => rest
      (eatDigits1 r).map skipWs
    else none
  | _ => none

/-- `strip_valve_status_words`. -/
def strip_valve_status_words (description : Str) : Str :=
  if description = [] then description else
  let d := stripWs description
  let d := applyAnchored valvePre d
  let phrases : List Str :=
    ["Open Status Limit Switch", "Closed Status Limit Switch",
     "Open Status", "Closed Status", "Limit Switch",
     "Status Switch"].map String.data
  let d := phrases.foldl (fun acc p => replaceWordCI p [] acc) d
  let d := replaceWordCI "Status".data [] d
  stripWs (collapseWs d)

/-- Position predicate for `\s*\bALARM\b.*$` (IGNORECASE). -/
def alarmTruncAt (prev : Option Char) (s : Str) : Bool :=
  let sp := s.takeWhile isSpaceB
  let rest := s.drop sp.length
  let bOK := if sp.isEmpty then boundaryBefore prev else true
  bOK && (match eatCI "ALARM".data rest with
          | some r => boundaryAfter r
          | none => false)

/-- Truncate at the leftmost position satisfying `m` (boundary-aware). -/
def truncAtFirstB (m : Option Char → Str → Bool) : Option Char → Str → Str
  | _, [] => []
  | prev, c :: rest =>
    if m prev (c :: rest) then [] else c :: truncAtFirstB m (some c) rest

/-- Decoration strings `A?(?:HH?|LL?)?` may generate (upper-cased). -/
def decorOK (l : Str) : Bool :=
  (["", "A", "AHH", "AH", "ALL", "AL", "HH", "H", "LL", "L"].map String.data).contains l

/-- Common tail of `^[TPLF]A?(?:HH?|LL?)?[-_]?[A-Z0-9]+[A-Z]?\s+` and its `PD`
    variant (IGNORECASE), after the measurement letters.  The optional
    decorations are themselves alphanumeric, so a successful parse either
    consumes the entire leading alphanumeric run followed by whitespace, or a
    decoration-shaped run, a dash/underscore, a second alphanumeric run and
    whitespace. -/
def headIsSpace : Str → Bool
  | c :: _ => isSpaceB c
  | [] => false

def alarmDescPreTail (rest : Str) : Option Str :=
  let (a1, r1) := spanP Char.isAlphanum rest
  if a1 ≠ [] ∧ headIsSpace r1 then
    some (skipWs r1)
  else
    match r1 with
    | c :: r2 =>
      if (c = '-' ∨ c = '_') ∧ decorOK (upper a1) then
        let (a2, r3) := spanP Char.isAlphanum r2
        if a2 ≠ [] ∧ headIsSpace r3 then
          some (skipWs r3)
        else none
      else none
    | [] => none

/-- `^[TPLF]A?(?:HH?|LL?)?[-_]?[A-Z0-9]+[A-Z]?\s+` (IGNORECASE). -/
def alarmDescPre (s : Str) : Option Str :=
  match s with
  | c0 :: rest =>
    if ['T','P','L','F'].contains (upc c0) then alarmDescPreTail rest else none
  | [] => none

/-- `^PDA?(?:HH?|LL?)?[-_]?[A-Z0-9]+[A-Z]?\s+` (IGNORECASE). -/
def alarmDescPrePD (s : Str) : Option Str :=
  match s with
  | c0 :: c1 :: rest =>
    if upc c0 = 'P' && upc c1 = 'D' then alarmDescPreTail rest else none
  | _ => none

/-- `strip_alarm_suffix_from_description`. -/
def strip_alarm_suffix_from_description (description : Str) : Str :=
  if description = [] then [] else
  let c := replaceSub "$N".data [' '] description
  let c := replaceSub "$n".data [' '] c
  let c := truncAtFirstB alarmTruncAt none c
  let c := applyAnchored alarmDescPre c
  let c := applyAnchored alarmDescPrePD c
  let c := subScan transmitterAt [] c
  stripWs (collapseWs c)

/-- `clean_alarm_description`'s anchored tail patterns (IGNORECASE):
    `\s+Alarm\s+Set\s*Point\s*$`, `\s+Alarm\s+Setpoint\s*$`,
    `\s+Set\s*Point\s*$`, `\s+Setpoint\s*$`, `\s+Alarm\s*$`. -/
def tailAlarmSetPoint (s : Str) : Bool :=
  (do
    let s ← eatWs1 s
    let s ← eatCI "Alarm".data s
    let s ← eatWs1 s
    let s ← eatCI "Set".data s
    let s := skipWs s
    let s ← eatCI "Point".data s
    if (skipWs s).isEmpty then some () else none).isSome

def tailAlarmSetpoint (s : Str) : Bool :=
  (do
    let s ← eatWs1 s
    let s ← eatCI "Alarm".data s
    let s ← eatWs1 s
    let s ← eatCI "Setpoint".data s
    if (skipWs s).isEmpty then some () else none).isSome

def tailSetPoint (s : Str) : Bool :=
  (do
    let s ← eatWs1 s
    let s ← eatCI "Set".data s
    let s := skipWs s
    let s ← eatCI "Point".data s
    if (skipWs s).isEmpty then some () else none).isSome

def tailSetpoint (s : Str) : Bool :=
  (do
    let s ← eatWs1 s
    let s ← eatCI "Setpoint".data s
    if (skipWs s).isEmpty then some () else none).isSome

def tailAlarm (s : Str) : Bool :=
  (do
    let s ← eatWs1 s
    let s ← eatCI "Alarm".data s
    if (skipWs s).isEmpty then some () else none).isSome

/-- `clean_alarm_description`. -/
def clean_alarm_description (description : Str) (alarm_level : Option Str)
    (_has_setpoint : Bool) : Str :=
  if description = [] then description else
  if alarm_level = none then description else
  let c := truncAtFirst tailAlarmSetPoint description
  let c := truncAtFirst tailAlarmSetpoint c
  let c := truncAtFirst tailSetPoint c
  let c := truncAtFirst tailSetpoint c
  let c := truncAtFirst tailAlarm c
  stripWs c

def ISA_MEASUREMENT : List (Char × Str) :=
  [('P', "Pressure".data), ('T', "Temperature".data), ('L', "Level".data),
   ('F', "Flow".data), ('A', "Analytical".data), ('V', "Vibration".data)]

/-! ## Target-id normalization (`step3_convert.py`, from `prefix_handler.py`) -/

/-- `^([A-Z]+)(\d+[A-Z]*)$` on an (already upper-cased) string. -/
def matchLettersDigits (s : Str) : Option (Str × Str) :=
  let (ls, r1) := spanP Char.isUpper s
  if ls = [] then none else
  let (ds, r2) := spanP Char.isDigit r1
  if ds = [] then none else
  let (ts, r3) := spanP Char.isUpper r2
  if r3 = [] then some (ls, ds ++ ts) else none

/-- `normalize_target_id`. -/
def normalize_target_id (s : Str) : Str :=
  if s = [] then s else
  let normalized := stripWs (upper (s.map (fun c => if c = '_' then '-' else c)))
  if hasChar '-' normalized then normalized
  else
    match matchLettersDigits normalized with
    | some (g1, g2) => g1 ++ '-' :: g2
    | none => normalized

/-- `normalize_transmitter_prefix` (source name kept modulo the final word,
    which the proof environment reserves). -/
def normalize_transmitter_code (target_id : Str) : Str :=
  if target_id = [] then target_id else
  match splitOnce '-' target_id with
  | none => target_id
  | some (pre, suffix) =>
    match lookupStr TWO_LETTER_TRANSMITTER_CODES (upper pre) with
    | some rep => rep ++ '-' :: suffix
    | none => target_id

/-- `resolve_valve_target_id`. -/
def resolve_valve_target_id (tag_id : Str) : Str :=
  if tag_id = [] then [] else
  let parts := if hasChar '-' tag_id then splitOnce '-' tag_id
               else splitOnce '_' tag_id
  match parts with
  | none => tag_id
  | some (pre, suffix) =>
    let pu := upper pre
    if VALVE_SWITCH_TO_XV.contains pu then "XV-".data ++ suffix
    else
      match lookupStr VALVE_Y_TO_V pu with
      | some v => v ++ '-' :: suffix
      | none =>
        if hasChar 'Y' pu ∧ pu ≠ "LXY".data then
          (pu.map (fun c => if c = 'Y' then 'V' else c)) ++ '-' :: suffix
        else tag_id

/-- `(HH|H|LL|L)?$`. -/
def levelOptEnd : Str → Bool
  | [] => true
  | ['H'] => true
  | ['H', 'H'] => true
  | ['L'] => true
  | ['L', 'L'] => true
  | _ => false

/-- `^([PLTFAVD])([XI]?)S(HH|H|LL|L)?$` on an upper-cased string. -/
def switchPreMatch : Str → Bool
  | c0 :: rest =>
    if "PLTFAVD".data.contains c0 then
      match rest with
      | c1 :: r2 =>
        if c1 = 'S' then levelOptEnd r2
        else if c1 = 'X' ∨ c1 = 'I' then
          match r2 with
          | 'S' :: r3 => levelOptEnd r3
          | _ => false
        else false
      | [] => false
    else false
  | [] => false

/-- `^PDS(HH|H|LL|L)?$` on an upper-cased string. -/
def pdsPreMatch : Str → Bool
  | 'P' :: 'D' :: 'S' :: r => levelOptEnd r
  | _ => false

/-- `is_switch_tag`. -/
def is_switch_tag (target_id : Str) : Bool :=
  if target_id = [] then false else
  let pre := if hasChar '-' target_id then beforeFirst '-' target_id else target_id
  let pu := upper pre
  switchPreMatch pu || pdsPreMatch pu

/-- `^[ZX][SI][OC][-_]` on an upper-cased string. -/
def zxsiocPre : Str → Bool
  | c0 :: c1 :: c2 :: c3 :: _ =>
    "ZX".data.contains c0 && "SI".data.contains c1 && "OC".data.contains c2 &&
    (c3 == '-' || c3 == '_')
  | _ => false

/-- `is_valve_position_switch`. -/
def is_valve_position_switch (target_id : Str) : Bool :=
  if target_id = [] then false else zxsiocPre (upper target_id)

def headIsDigit : Str → Bool
  | c :: _ => c.isDigit
  | [] => false

/-- `\b[ZX][IS][OC][-_]?\d+` (searched in the upper-cased description). -/
def valveTagInDescAt (prev : Option Char) (s : Str) : Bool :=
  boundaryBefore prev &&
  (match s with
   | c0 :: c1 :: c2 :: rest =>
     "ZX".data.contains c0 && "IS".data.contains c1 && "OC".data.contains c2 &&
     (let r := match rest with
               | c :: r2 => if c = '-' ∨ c = '_' then r2 else rest
               | [] => rest
      headIsDigit r)
   | _ => false)

/-- `is_valve_tag`. -/
def is_valve_tag (target_id : Str) (description : Str) : Bool :=
  if target_id = [] then false else
  let pre := if hasChar '-' target_id then upper (beforeFirst '-' target_id)
             else upper (beforeFirst '_' target_id)
  if VALVE_PATTERNS.any (fun p => p.1 == pre) ||
     VALVE_SWITCH_PATTERNS.any (fun p => p.1 == pre) then true
  else if VALVE_SWITCH_TO_XV.contains pre then true
  else if pre.getLast? == some 'V' && pre.length ≤ 4 && !(pre == "PV".data) then true
  else if description ≠ [] ∧ searchB valveTagInDescAt (upper description) then true
  else false

/-- Lookahead tail of `(?<![A-Z])WORDS?(?![A-Z])`. -/
def afterMotorWord : Str → Bool
  | [] => true
  | 'S' :: r2 => (match r2 with | c :: _ => !c.isUpper | [] => true)
  | c :: _ => !c.isUpper

/-- `has_motor_equipment_word`. -/
def has_motor_equipment_word (text : Str) : Bool :=
  if text = [] then false else
  let tu := upper text
  MOTOR_EQUIPMENT_WORDS.any (fun w =>
    searchB (fun prev s =>
      (match prev with | some c => !c.isUpper | none => true) &&
      (match eatLit w s with
       | some rest => afterMotorWord rest
       | none => false)) tu)

/-- `has_motor_trigger_word`. -/
def has_motor_trigger_word (tag_name description : Str) : Bool :=
  let tu := upper tag_name
  let du := upper description
  (RUN_COMMAND_TRIGGERS ++ RUN_STATUS_TRIGGERS ++ AUTO_STATUS_TRIGGERS).any
    (fun t => containsSub (upper t) tu || containsSub (upper t) du)

/-- `is_motor_io` (source name kept modulo the final word, which the proof
    environment reserves). -/
def is_motor_point (tag_name description target_id : Str) : Bool :=
  (if target_id ≠ [] then
    let pre := if hasChar '-' target_id then beforeFirst '-' target_id
               else beforeFirst '_' target_id
    MOTOR_KEYWORD_TO_CODE_VALUES.contains (upper pre)
  else false) ||
  (has_motor_equipment_word description && has_motor_trigger_word tag_name description)

/-- `is_vfd_fault`. -/
def is_vfd_fault (tag_name description : Str) : Bool :=
  let combined := upper (tag_name ++ ' ' :: description)
  (["VFD", "VSD"].map String.data).any (fun v => containsSub v combined) &&
  (["FAULT", "FAIL"].map String.data).any (fun f => containsSub f combined)

/-! ## Severity detection (`detect_severity_code`) -/

/-- `re.sub(r"[_\-\./]", " ", t_raw)`. -/
def sevSeparatorsToSpace (s : Str) : Str :=
  s.map (fun c => if c = '_' ∨ c = '-' ∨ c = '.' ∨ c = '/' then ' ' else c)

/-- IV alternation `DP|PD|P|F|V|T|L|A` (Python's length-descending stable
    sort of the dict keys). -/
def SEV_IV_SORTED : List Str :=
  ["DP", "PD", "P", "F", "V", "T", "L", "A"].map String.data

def kHH : Str → Bool := fun r => "HH".data.isPrefixOf r
def kLL : Str → Bool := fun r => "LL".data.isPrefixOf r
/-- `H(?!H)`. -/
def kH : Str → Bool
  | 'H' :: r => !("H".data.isPrefixOf r)
  | _ => false
/-- `L(?!L)`. -/
def kL : Str → Bool
  | 'L' :: r => !("L".data.isPrefixOf r)
  | _ => false

/-- `A?` with backtracking before a continuation `k`. -/
def afterOptA (k : Str → Bool) : Str → Bool
  | 'A' :: r => k r || k ('A' :: r)
  | r => k r

/-- `\b(?:DP|PD|P|F|V|T|L|A)[-_]` followed by a tail (`A?HH` etc.). -/
def ivSevAt (tail : Str → Bool) (prev : Option Char) (s : Str) : Bool :=
  boundaryBefore prev &&
  SEV_IV_SORTED.any (fun iv =>
    match eatLit iv s with
    | some r =>
      (match r with
       | c :: r2 => (c == '-' || c == '_') && tail r2
       | [] => false)
    | none => false)

/-- One single-letter IV's four checks `\b{iv}AHH` / `ALL` / `AH(?!H)` /
    `AL(?!L)` (in that order). -/
def singleIvCheck (iv : Char) (t_raw : Str) : Option Str :=
  let pat := fun (k : Str → Bool) =>
    searchB (fun prev s =>
      boundaryBefore prev &&
      (match eatLit [iv, 'A'] s with
       | some r => k r
       | none => false)) t_raw
  if pat kHH then some "HH".data
  else if pat kLL then some "LL".data
  else if pat kH then some "H".data
  else if pat kL then some "L".data
  else none

/-- The `for iv in iv_tokens` loop restricted to single-letter IVs. -/
def singleIvLoop : List Char → Str → Option Str
  | [], _ => none
  | iv :: rest, t =>
    match singleIvCheck iv t with
    | some r => some r
    | none => singleIvLoop rest t

/-- `\bWORD\b` search (case-insensitive). -/
def wordSearchCI (w : Str) (s : Str) : Bool :=
  searchB (fun prev t =>
    boundaryBefore prev &&
    (match eatCI w t with
     | some r => boundaryAfter r
     | none => false)) s

def sepDash : Str → Option Str
  | c :: r => if c = '-' ∨ c = '_' then some r else none
  | [] => none

/-- `[-_]?` (disjoint from every continuation used, hence deterministic). -/
def optSep : Str → Str
  | c :: r => if c = '-' ∨ c = '_' then r else c :: r
  | [] => []

/-- `A?` (deterministic for continuations starting with `H`/`L`). -/
def optA : Str → Str
  | 'A' :: r => r
  | s => s

def notFollowedBy (pats : List Str) (s : Str) : Bool :=
  pats.all (fun p => !(p.isPrefixOf s))

/-- `\bALARM[-_](?:HIGH[-_]HIGH|HIHI|HI[-_]HI)`. -/
def alarmHighHighAt (prev : Option Char) (s : Str) : Bool :=
  boundaryBefore prev &&
  (match eatLit "ALARM".data s with
   | some r =>
     (match sepDash r with
      | some r2 =>
        ((eatLit "HIGH".data r2).bind sepDash |>.bind (eatLit "HIGH".data)).isSome ||
        (eatLit "HIHI".data r2).isSome ||
        ((eatLit "HI".data r2).bind sepDash |>.bind (eatLit "HI".data)).isSome
      | none => false)
   | none => false)

/-- `\bALARM[-_](?:LOW[-_]LOW|LOLO|LO[-_]LO)`. -/
def alarmLowLowAt (prev : Option Char) (s : Str) : Bool :=
  boundaryBefore prev &&
  (match eatLit "ALARM".data s with
   | some r =>
     (match sepDash r with
      | some r2 =>
        ((eatLit "LOW".data r2).bind sepDash |>.bind (eatLit "LOW".data)).isSome ||
        (eatLit "LOLO".data r2).isSome ||
        ((eatLit "LO".data r2).bind sepDash |>.bind (eatLit "LO".data)).isSome
      | none => false)
   | none => false)

/-- `\bALARM[-_]?A?` followed by a level tail. -/
def alarmLvlAt (tail : Str → Bool) (prev : Option Char) (s : Str) : Bool :=
  boundaryBefore prev &&
  (match eatLit "ALARM".data s with
   | some r => tail (optA (optSep r))
   | none => false)

/-- `H(?!H|IGH)`. -/
def kHnotHIGH : Str → Bool
  | 'H' :: r => notFollowedBy (["H", "IGH"].map String.data) r
  | _ => false

/-- `L(?!L|OW)`. -/
def kLnotLOW : Str → Bool
  | 'L' :: r => notFollowedBy (["L", "OW"].map String.data) r
  | _ => false

/-- Free-text `(HI\s*HI|HIGH\s*HIGH|HIHI|HH\b)`. -/
def freeHHAt (_ : Option Char) (s : Str) : Bool :=
  ((eatLit "HI".data s).map skipWs |>.bind (eatLit "HI".data)).isSome ||
  ((eatLit "HIGH".data s).map skipWs |>.bind (eatLit "HIGH".data)).isSome ||
  (eatLit "HIHI".data s).isSome ||
  (match eatLit "HH".data s with
   | some r => boundaryAfter r
   | none => false)

/-- Free-text `(LO\s*LO|LOW\s*LOW|LOLO|\bLL\b)`. -/
def freeLLAt (prev : Option Char) (s : Str) : Bool :=
  ((eatLit "LO".data s).map skipWs |>.bind (eatLit "LO".data)).isSome ||
  ((eatLit "LOW".data s).map skipWs |>.bind (eatLit "LOW".data)).isSome ||
  (eatLit "LOLO".data s).isSome ||
  (boundaryBefore prev &&
   (match eatLit "LL".data s with
    | some r => boundaryAfter r
    | none => false))

/-- `\s*(?:HI|HIGH)` lookahead body (`HIGH` starts with `HI`). -/
def nextHiHigh (r : Str) : Bool := "HI".data.isPrefixOf (skipWs r)

def nextLoLow (r : Str) : Bool := "LO".data.isPrefixOf (skipWs r)

/-- `\b(HI|HIGH)(?!\s*(?:HI|HIGH))\b`. -/
def freeHAt (prev : Option Char) (s : Str) : Bool :=
  boundaryBefore prev &&
  ((match eatLit "HI".data s with
    | some r => !nextHiHigh r && boundaryAfter r
    | none => false) ||
   (match eatLit "HIGH".data s with
    | some r => !nextHiHigh r && boundaryAfter r
    | none => false))

/-- `\b(LO|LOW)(?!\s*(?:LO|LOW))\b`. -/
def freeLAt (prev : Option Char) (s : Str) : Bool :=
  boundaryBefore prev &&
  ((match eatLit "LO".data s with
    | some r => !nextLoLow r && boundaryAfter r
    | none => false) ||
   (match eatLit "LOW".data s with
    | some r => !nextLoLow r && boundaryAfter r
    | none => false))

/-- `detect_severity_code`. -/
def detect_severity_code (text : Str) : Option Str :=
  if text = [] then none else
  let t_raw := upper text
  let t := sevSeparatorsToSpace t_raw
  if searchB (ivSevAt (afterOptA kHH)) t_raw then some "HH".data
  else if searchB (ivSevAt (afterOptA kLL)) t_raw then some "LL".data
  else if searchB (ivSevAt (afterOptA kH)) t_raw then some "H".data
  else if searchB (ivSevAt (afterOptA kL)) t_raw then some "L".data
  else
  match singleIvLoop ['P', 'F', 'V', 'T', 'L', 'A'] t_raw with
  | some r => some r
  | none =>
  if wordSearchCI "HHSetpoint".data t_raw then some "HH".data
  else if wordSearchCI "LLSetpoint".data t_raw then some "LL".data
  else if wordSearchCI "HSetpoint".data t_raw then some "H".data
  else if wordSearchCI "LSetpoint".data t_raw then some "L".data
  else if searchB alarmHighHighAt t_raw then some "HH".data
  else if searchB alarmLowLowAt t_raw then some "LL".data
  else if searchB (alarmLvlAt kHH) t_raw then some "HH".data
  else if searchB (alarmLvlAt kLL) t_raw then some "LL".data
  else if searchB (alarmLvlAt kHnotHIGH) t_raw then some "H".data
  else if searchB (alarmLvlAt kLnotLOW) t_raw then some "L".data
  else if searchB freeHHAt t then some "HH".data
  else if searchB freeLLAt t then some "LL".data
  else if searchB freeHAt t then some "H".data
  else if searchB freeLAt t then some "L".data
  else none

/-- `enhance_with_isa_measurement`. -/
def enhance_with_isa_measurement (equipment_desc target_id : Str) : Str :=
  if target_id = [] ∨ equipment_desc = [] then equipment_desc
  else
    let pre := if hasChar '-' target_id then upper (beforeFirst '-' target_id)
               else upper target_id
    match pre with
    | [] => equipment_desc
    | fl :: _ =>
      match (ISA_MEASUREMENT.find? (fun p => p.1 == fl)).map (·.2) with
      | none => equipment_desc
      | some meas =>
        if containsSub (upper meas) (upper equipment_desc) then equipment_desc
        else if equipment_desc ≠ [] then equipment_desc ++ ' ' :: meas
        else meas

/-! ## Alarm-tag conversion (`convert_alarm_tag_to_transmitter`, enhanced) -/

/-- `w` then `-`, case-insensitively; returns the (canonical) level and the rest. -/
def tryLvl (lvl : Str) (s : Str) : Option (Str × Str) :=
  match eatCI lvl s with
  | some ('-' :: r) => some (lvl, r)
  | _ => none

/-- `(HH|H|LL|L)?-` with the regex's alternation order. -/
def matchLevelOptDash (s : Str) : Option (Option Str × Str) :=
  match tryLvl "HH".data s with
  | some (l, r) => some (some l, r)
  | none =>
  match tryLvl "H".data s with
  | some (l, r) => some (some l, r)
  | none =>
  match tryLvl "LL".data s with
  | some (l, r) => some (some l, r)
  | none =>
  match tryLvl "L".data s with
  | some (l, r) => some (some l, r)
  | none =>
  match s with
  | '-' :: r => some (none, r)
  | _ => none

/-- `(HH|H|LL|L)-`. -/
def matchLevelDash (s : Str) : Option (Str × Str) :=
  tryLvl "HH".data s <|> tryLvl "H".data s <|> tryLvl "LL".data s <|>
  tryLvl "L".data s

/-- `^([PLTFAVD])([XI]?)S(HH|H|LL|L)?-(.+)$` (IGNORECASE); yields the level. -/
def matchSwitchTag (s : Str) : Option (Option Str) :=
  match s with
  | c0 :: rest =>
    if "PLTFAVD".data.contains (upc c0) then
      let tryAt : Str → Option (Option Str) := fun r =>
        match r with
        | c :: r2 =>
          if upc c = 'S' then
            match matchLevelOptDash r2 with
            | some (lvl, rest2) => if rest2 ≠ [] then some lvl else none
            | none => none
          else none
        | [] => none
      match rest with
      | c1 :: r2 =>
        if upc c1 = 'X' ∨ upc c1 = 'I' then
          match tryAt r2 with
          | some v => some v
          | none => tryAt (c1 :: r2)
        else tryAt (c1 :: r2)
      | [] => none
    else none
  | [] => none

/-- `^([PLTFAVD])([XI]?)A(HH|H|LL|L)-(.+)$` (IGNORECASE);
    yields (measurement letter, modifier, level, number). -/
def matchAlarmTag (s : Str) : Option (Char × Str × Str × Str) :=
  match s with
  | c0 :: rest =>
    if "PLTFAVD".data.contains (upc c0) then
      let tryAt : Str → Str → Option (Char × Str × Str × Str) := fun md r =>
        match r with
        | c :: r2 =>
          if upc c = 'A' then
            match matchLevelDash r2 with
            | some (lvl, rest2) =>
              if rest2 ≠ [] then some (upc c0, md, lvl, upper rest2) else none
            | none => none
          else none
        | [] => none
      match rest with
      | c1 :: r2 =>
        if upc c1 = 'X' ∨ upc c1 = 'I' then
          match tryAt [upc c1] r2 with
          | some v => some v
          | none => tryAt [] (c1 :: r2)
        else tryAt [] (c1 :: r2)
      | [] => none
    else none
  | [] => none

/-- `^(PD|DP)A(HH|H|LL|L)-(.+)$` (IGNORECASE). -/
def matchDpAlarm (s : Str) : Option (Str × Str) :=
  let tryPre : Str → Option (Str × Str) := fun p => do
    let r ← eatCI p s
    match r with
    | c :: r2 =>
      if upc c = 'A' then
        match matchLevelDash r2 with
        | some (lvl, rest2) =>
          if rest2 ≠ [] then some (lvl, upper rest2) else none
        | none => none
      else none
    | [] => none
  tryPre "PD".data <|> tryPre "DP".data

/-- `convert_alarm_tag_to_transmitter` (enhanced version):
    returns `(converted_tag, alarm_level, is_switch)`. -/
def convert_alarm_tag_to_transmitter (tag_id : Str) : Str × Option Str × Bool :=
  if tag_id = [] then (tag_id, none, false) else
  match matchSwitchTag tag_id with
  | some lvl => (tag_id, lvl, true)
  | none =>
  match matchAlarmTag tag_id with
  | some (meas, md, lvl, number) =>
    let base := (lookupStr ALARM_TO_TRANSMITTER [meas]).getD (meas :: "IT".data)
    let tpre := if md ≠ [] then base.take 1 ++ md ++ base.drop 1 else base
    (tpre ++ '-' :: number, some lvl, false)
  | none =>
  match matchDpAlarm tag_id with
  | some (lvl, number) => ("PDIT-".data ++ number, some lvl, false)
  | none => (tag_id, none, false)

/-! ## Equipment classification -/

inductive EqType
  | valve
  | switch
  | motor
  | generic
  deriving DecidableEq, Repr

/-- `classify_equipment_type`. -/
def classify_equipment_type (tag_name description target_id : Str) : EqType :=
  let is_vps := is_valve_position_switch target_id
  let is_sw := if is_vps then false else is_switch_tag target_id
  let is_mot := if is_sw || is_vps then false
                else is_motor_point tag_name description target_id
  let is_vlv := is_valve_tag target_id description
  if is_vps || is_vlv then .valve
  else if is_sw then .switch
  else if is_mot then .motor
  else .generic

def triggerHit (triggers : List Str) (tu du : Str) : Bool :=
  triggers.any (fun t => containsSub (upper t) tu || containsSub (upper t) du)

/-- `resolve_motor_tnd`: `(target_name_description, states)`. -/
def resolve_motor_tnd (tag_name description : Str) (is_output : Bool) : Str × Str :=
  if is_output then ("Run Command".data, "0=Off;1=On".data)
  else if is_vfd_fault tag_name description then
    ("VFD Fault Status".data, "0=Ok;1=Fault".data)
  else
    let du := upper description
    let tu := upper tag_name
    if triggerHit AUTO_STATUS_TRIGGERS tu du then
      ("Auto Status".data, "0=Not in Auto;1=Auto".data)
    else if triggerHit RUN_STATUS_TRIGGERS tu du then
      ("Run Status".data, "0=Off;1=Running".data)
    else ("Run Status".data, "0=Off;1=Running".data)

/-- `^[ZX]SO[-_]` on an upper-cased string. -/
def zsoPre : Str → Bool
  | c0 :: 'S' :: 'O' :: c3 :: _ => "ZX".data.contains c0 && (c3 == '-' || c3 == '_')
  | _ => false

/-- `^[ZX]SC[-_]` on an upper-cased string. -/
def zscPre : Str → Bool
  | c0 :: 'S' :: 'C' :: c3 :: _ => "ZX".data.contains c0 && (c3 == '-' || c3 == '_')
  | _ => false

/-- `\bCLOS` search (no right boundary). -/
def closSearch (du : Str) : Bool :=
  searchB (fun prev s => boundaryBefore prev && "CLOS".data.isPrefixOf s) du

/-- `resolve_valve_tnd`: `(target_name_description, states)`. -/
def resolve_valve_tnd (tag_name target_id description : Str) (is_output : Bool) :
    Str × Str :=
  if is_output then ("Output Command".data, "0=Closed;1=Open".data)
  else
    let pre := if target_id ≠ [] ∧ hasChar '-' target_id then
                 upper (beforeFirst '-' target_id)
               else upper target_id
    if pre = "ZSO".data ∨ pre = "XSO".data then
      ("Open Switch Status".data, "0=Not Open;1=Open".data)
    else if pre = "ZSC".data ∨ pre = "XSC".data then
      ("Closed Switch Status".data, "0=Not Closed;1=Closed".data)
    else
      let du := upper description
      let tu := upper tag_name
      if wordSearchCI "OPEN".data du || zsoPre tu then
        ("Open Switch Status".data, "0=Not Open;1=Open".data)
      else if closSearch du || zscPre tu then
        ("Closed Switch Status".data, "0=Not Closed;1=Closed".data)
      else ("Switch Status".data, [])

/-- `resolve_analog_input_tnd`. -/
def resolve_analog_input_tnd (target_id : Str) : Str :=
  if target_id ≠ [] ∧ (upper target_id).head? = some 'F' then "Rate".data
  else "Process Value".data

/-! ## Core classification helpers -/

/-- Python `str.title()` (ASCII). -/
def pythonTitleAux : Bool → Str → Str
  | _, [] => []
  | prevAlpha, c :: rest =>
    if c.isAlpha then
      (if prevAlpha then lowc c else upc c) :: pythonTitleAux true rest
    else c :: pythonTitleAux false rest

def pythonTitle (s : Str) : Str := pythonTitleAux false s

/-- `.replace('_', ' ').title()`. -/
def titleUnderscore (s : Str) : Str :=
  pythonTitle (s.map (fun c => if c = '_' then ' ' else c))

/-- `identify_tag_type` (enhanced version; the merged variant differs only in
    the default string). -/
def identify_tag_type (description : Str) : Str :=
  if description = [] then "UNCLASSIFIED".data else
  let du := upper description
  match CLASSIFICATION_KEYWORDS.find? (fun b => b.2.any (fun kw => containsSub kw du)) with
  | some b => titleUnderscore b.1
  | none => "UNCLASSIFIED".data

/-- `^([A-Z]{2,6}[-_]\d+[A-Z]?)` (case-sensitive). -/
def tagIdHead (s : Str) : Option (Str × Str) :=
  let (ls, r1) := spanP Char.isUpper s
  if 2 ≤ ls.length ∧ ls.length ≤ 6 then
    match r1 with
    | sep :: r2 =>
      if sep = '-' ∨ sep = '_' then
        match spanDigits1 r2 with
        | some (ds, r3) =>
          match r3 with
          | c :: r4 =>
            if c.isUpper then some (ls ++ sep :: ds ++ [c], r4)
            else some (ls ++ sep :: ds, r3)
          | [] => some (ls ++ sep :: ds, [])
        | none => none
      else none
    | [] => none
  else none

/-- `extract_tag_id_from_description`. -/
def extract_tag_id_from_description (description : Str) : Option Str × Str :=
  if description = [] then (none, []) else
  match tagIdHead description with
  | some (tag, rest) =>
    let equipment := stripWs rest
    let equipment := equipment.dropWhile (fun c =>
      c == '-' || c == '_' || c == ':' || isSpaceB c)
    (some tag, equipment)
  | none => (none, description)

structure Classification where
  pattern : Str
  type_ : Str
  descr : Str
  order : Nat
  deriving DecidableEq, Repr

/-- Stable insertion sort by pattern length, descending (Python's stable
    `sorted(..., key=lambda x: len(x[0]), reverse=True)`). -/
def insertLenDesc (x : Str × PatInfo) : List (Str × PatInfo) → List (Str × PatInfo)
  | [] => [x]
  | y :: ys => if y.1.length ≤ x.1.length then x :: y :: ys else y :: insertLenDesc x ys

def sortLenDesc : List (Str × PatInfo) → List (Str × PatInfo)
  | [] => []
  | x :: xs => insertLenDesc x (sortLenDesc xs)

/-- The Python dict merge of `ALARM_PATTERNS` then `SWITCH_PATTERNS`
    (disjoint key sets), sorted by key length descending (stable). -/
def sortedAlarmSwitchPatterns : List (Str × PatInfo) :=
  sortLenDesc (ALARM_PATTERNS ++ SWITCH_PATTERNS)

def findPattern (du tu : Str) : List (Str × PatInfo) → Option Classification
  | [] => none
  | (name, info) :: rest =>
    if containsSub name du || containsSub name tu then
      some ⟨name, info.type_, info.descr, info.order⟩
    else findPattern du tu rest

def findSimple (du tu : Str) (descr : Str) : List (Str × Str) → Option Classification
  | [] => none
  | (name, ty) :: rest =>
    if containsSub name du || containsSub name tu then some ⟨name, ty, descr, 0⟩
    else findSimple du tu descr rest

/-- `classify_by_pattern`. -/
def classify_by_pattern (original_tag description : Str) : Option Classification :=
  let du := upper description
  let tu := upper original_tag
  match findPattern du tu sortedAlarmSwitchPatterns with
  | some c => some c
  | none =>
  match findSimple du tu "Process Value".data TRANSMITTER_PATTERNS with
  | some c => some c
  | none =>
  match findSimple du tu "Control Signal".data CONTROLLER_PATTERNS with
  | some c => some c
  | none => findSimple du tu "Control Valve".data VALVE_PATTERNS

def validateAux (t : Str) : List Str → Str
  | [] => "UNCLASSIFIED".data
  | v :: rest => if upper t = upper v then v else validateAux t rest

/-- `validate_target_name` (enhanced; iterates `VALID_TARGET_NAMES`). -/
def validate_target_name (t : Str) : Str :=
  if t = [] then "UNCLASSIFIED".data else validateAux t VALID_TARGET_NAMES

/-- `DAY\s*[_$-]?\s*0|DAY0` (searched case-insensitively in the raw
    description; the second alternative is subsumed by the first with
    zero-width separators). -/
def dayRegexAt (digit : Char) (s : Str) : Bool :=
  (do
    let r ← eatCI "DAY".data s
    let r := skipWs r
    let r := match r with
             | c :: r2 => if c = '_' ∨ c = '$' ∨ c = '-' then r2 else c :: r2
             | [] => []
    let r := skipWs r
    match r with
    | c :: _ => if c = digit then some () else none
    | [] => none).isSome

def dayRegexSearch (s : Str) (digit : Char) : Bool := searchNB (dayRegexAt digit) s

/-- `detect_day_volume` (enhanced version: `TODAY` also requires `VOLUME`). -/
def detect_day_volume (address description : Str) : Option Str :=
  let au := upper address
  let du := upper description
  if containsSub "YESTERDAY".data du then some "Day 1 Volume".data
  else if containsSub "TODAY".data du && containsSub "VOLUME".data du then
    some "Day 0 Volume".data
  else if containsSub "FLOW".data au &&
          (containsSub "DAY0".data au || containsSub ".DAY0".data au) then
    some "Day 0 Volume".data
  else if containsSub "FLOW".data au &&
          (containsSub "DAY1".data au || containsSub ".DAY1".data au) then
    some "Day 1 Volume".data
  else if dayRegexSearch description '0' then some "Day 0 Volume".data
  else if dayRegexSearch description '1' then some "Day 1 Volume".data
  else none

def slashDash : Str → Option Str
  | c :: r => if c = '/' ∨ c = '-' then some r else none
  | [] => none

/-- `HAND[/\-]OFF[/\-]AUTO` (on the upper-cased description). -/
def handOffAuto (s : Str) : Bool :=
  (do
    let r ← eatLit "HAND".data s
    let r ← slashDash r
    let r ← eatLit "OFF".data r
    let r ← slashDash r
    let _ ← eatLit "AUTO".data r
    pure ()).isSome

/-- `\bH[/\-]O[/\-]A\b`. -/
def hoaSlashAt (prev : Option Char) (s : Str) : Bool :=
  boundaryBefore prev &&
  (match s with
   | 'H' :: c1 :: 'O' :: c2 :: 'A' :: rest =>
     (c1 == '/' || c1 == '-') && (c2 == '/' || c2 == '-') && boundaryAfter rest
   | _ => false)

/-- `detect_hoa_pattern`. -/
def detect_hoa_pattern (description : Str) : Bool :=
  if description = [] then false else
  let du := upper description
  if wordSearchCI "HOA".data du then true
  else if containsSub "HAND".data du && containsSub "OFF".data du &&
          containsSub "AUTO".data du then true
  else if searchNB handOffAuto du then true
  else if searchB hoaSlashAt du then true
  else false

/-- `detect_permissive_pattern`. -/
def detect_permissive_pattern (description : Str) : Bool :=
  if description = [] then false else
  containsSub "PERMISSIVE".data (upper description)

/-- `SET\s*POINT` (on the upper-cased description). -/
def setPointTail (s : Str) : Bool :=
  (do
    let r ← eatLit "SET".data s
    let r := skipWs r
    let _ ← eatLit "POINT".data r
    pure ()).isSome

/-- `(?:ALARM\s*)?` with backtracking before a continuation `k`. -/
def eatOptAlarm (k : Str → Bool) (s : Str) : Bool :=
  (match eatLit "ALARM".data s with
   | some r => k (skipWs r)
   | none => false) || k s

/-- `w1\s*w2\s*`. -/
def after2 (w1 w2 : Str) (s : Str) : Option Str := do
  let r ← eatLit w1 s
  let r := skipWs r
  let r ← eatLit w2 r
  pure (skipWs r)

/-- `detect_setpoint_type` (enhanced version, with `SET\s*POINT` patterns;
    Python sorts its pattern list by regex-source length, which preserves the
    source order used below). -/
def detect_setpoint_type (description : Str) : Option Str :=
  if description = [] then none else
  let du := upper description
  if !(containsSub "SETPOINT".data du || containsSub "SET POINT".data du) then none
  else
    let p1 := fun s => match after2 "HIGH".data "HIGH".data s with
                       | some r => eatOptAlarm setPointTail r
                       | none => false
    let p2 := fun s => eatOptAlarm (fun r =>
                         match after2 "HIGH".data "HIGH".data r with
                         | some r2 => setPointTail r2
                         | none => false) s
    let p3 := fun s => match after2 "LOW".data "LOW".data s with
                       | some r => eatOptAlarm setPointTail r
                       | none => false
    let p4 := fun s => eatOptAlarm (fun r =>
                         match after2 "LOW".data "LOW".data r with
                         | some r2 => setPointTail r2
                         | none => false) s
    let p5 := fun s => match eatLit "HIGH".data s with
                       | some r => eatOptAlarm setPointTail (skipWs r)
                       | none => false
    let p6 := fun s => eatOptAlarm (fun r =>
                         match eatLit "HIGH".data r with
                         | some r2 => setPointTail (skipWs r2)
                         | none => false) s
    let p7 := fun s => match eatLit "LOW".data s with
                       | some r => eatOptAlarm setPointTail (skipWs r)
                       | none => false
    let p8 := fun s => eatOptAlarm (fun r =>
                         match eatLit "LOW".data r with
                         | some r2 => setPointTail (skipWs r2)
                         | none => false) s
    if searchNB p1 du then some "High High Alarm Setpoint".data
    else if searchNB p2 du then some "High High Alarm Setpoint".data
    else if searchNB p3 du then some "Low Low Alarm Setpoint".data
    else if searchNB p4 du then some "Low Low Alarm Setpoint".data
    else if searchNB p5 du then some "High Alarm Setpoint".data
    else if searchNB p6 du then some "High Alarm Setpoint".data
    else if searchNB p7 du then some "Low Alarm Setpoint".data
    else if searchNB p8 du then some "Low Alarm Setpoint".data
    else some "Setpoint".data

/-- `is_alarm_address` (`^ALARM\[\d+\]`, IGNORECASE). -/
def is_alarm_address (address : Str) : Bool :=
  if address = [] then false else
  (do
    let r ← eatCI "ALARM".data address
    let r ← eatLit ['['] r
    let (_, r) ← spanDigits1 r
    let _ ← eatLit [']'] r
    pure ()).isSome

/-- `is_writefloat_address` (`^WRITEFLOAT\[\d+\]`, IGNORECASE). -/
def is_writefloat_address (address : Str) : Bool :=
  if address = [] then false else
  (do
    let r ← eatCI "WRITEFLOAT".data address
    let r ← eatLit ['['] r
    let (_, r) ← spanDigits1 r
    let _ ← eatLit [']'] r
    pure ()).isSome

/-! ## Enhanced tag extraction (`extract_tag_from_alarm_description` etc.) -/

/-- `(HH|H|LL|L)` (IGNORECASE), capturing the canonical level.  Greedy `HH`
    before `H` is safe for every continuation used (none accepts `H`). -/
def eatLevelCap (s : Str) : Option (Str × Str) :=
  match s with
  | a :: b :: r =>
    if upc a = 'H' ∧ upc b = 'H' then some ("HH".data, r)
    else if upc a = 'H' then some ("H".data, b :: r)
    else if upc a = 'L' ∧ upc b = 'L' then some ("LL".data, r)
    else if upc a = 'L' then some ("L".data, b :: r)
    else none
  | [a] =>
    if upc a = 'H' then some ("H".data, [])
    else if upc a = 'L' then some ("L".data, [])
    else none
  | [] => none

/-- `[A-Z]?\d+` (IGNORECASE), captured. -/
def numBase (s : Str) : Option (Str × Str) :=
  match s with
  | c :: r =>
    if c.isAlpha then (spanDigits1 r).map (fun p => (c :: p.1, p.2))
    else spanDigits1 (c :: r)
  | [] => none

/-- `[A-Z]?\d+[A-Z]?(?:[-_]\d+)?` (IGNORECASE), captured; the optional tail
    pieces are disjoint from every continuation used, hence greedy. -/
def numGroup6 (s : Str) : Option (Str × Str) := do
  let (b, r) ← numBase s
  let (b, r) := match r with
                | c :: r2 => if c.isAlpha then (b ++ [c], r2) else (b, c :: r2)
                | [] => (b, [])
  match r with
  | c :: r2 =>
    if c = '-' ∨ c = '_' then
      match spanDigits1 r2 with
      | some (ds, rr) => some (b ++ c :: ds, rr)
      | none => some (b, r)
    else some (b, r)
  | [] => some (b, [])

/-- `[PLTFAVD][XI]?(?:A|S)?(?:HH|H|LL|L)` (IGNORECASE). -/
def alarmToken (s : Str) : Option Str :=
  match s with
  | c0 :: r =>
    if "PLTFAVD".data.contains (upc c0) then
      let r := match r with
               | c :: r2 => if upc c = 'X' ∨ upc c = 'I' then r2 else c :: r2
               | [] => []
      let r := match r with
               | c :: r2 => if upc c = 'A' ∨ upc c = 'S' then r2 else c :: r2
               | [] => []
      (eatLevelCap r).map (·.2)
    else none
  | [] => none

/-- Pattern 1 of `extract_tag_from_alarm_description`:
    `^([PLTFAVD])IT[-_]([A-Z]?\d+(?:[-_]\d+)?)[-_](?:[PLTFAVD][XI]?(?:A|S)?(?:HH|H|LL|L))\s`
    (IGNORECASE); returns the built transmitter tag. -/
def alarmDescP1 (description : Str) : Option Str :=
  match description with
  | c0 :: rest =>
    if "PLTFAVD".data.contains (upc c0) then
      let cont : Str → Str → Option Str := fun num r2 => do
        let r3 ← sepDash r2
        let r4 ← alarmToken r3
        let _ ← (match r4 with
                 | c :: _ => if isSpaceB c then some () else none
                 | [] => none)
        let meas := upc c0
        let base := (lookupStr ALARM_TO_TRANSMITTER [meas]).getD (meas :: "IT".data)
        pure (base ++ '-' :: (upper num).map (fun c => if c = '_' then '-' else c))
      (do
        let r ← eatCI "IT".data rest
        let r ← sepDash r
        let (num, r2) ← numBase r
        let ext : Option Str := do
          let r3 ← sepDash r2
          let (ds, rr) ← spanDigits1 r3
          let sep := r2.headD '-'
          cont (num ++ sep :: ds) rr
        match ext with
        | some v => some v
        | none => cont num r2)
    else none
  | [] => none

/-- Parse `([PLTFAVD])([XI]?)(S)?([AO])?(HH|H|LL|L)-`; returns
    (measurement, modifier, is-switch, level, rest after the dash). -/
def tagCore (s : Str) : Option (Char × Str × Bool × Str × Str) :=
  match s with
  | c0 :: r =>
    if "PLTFAVD".data.contains (upc c0) then
      let (md, r) := match r with
                     | c :: r2 =>
                       if upc c = 'X' ∨ upc c = 'I' then ([upc c], r2)
                       else ([], c :: r2)
                     | [] => (([] : Str), ([] : Str))
      let (isSw, r) := match r with
                       | c :: r2 =>
                         if upc c = 'S' then (true, r2) else (false, c :: r2)
                       | [] => (false, ([] : Str))
      let r := match r with
               | c :: r2 => if upc c = 'A' ∨ upc c = 'O' then r2 else c :: r2
               | [] => []
      match eatLevelCap r with
      | some (lvl, '-' :: r2) => some (upc c0, md, isSw, lvl, r2)
      | _ => none
    else none
  | [] => none

/-- Build the tag of patterns 2–4 from the captured pieces. -/
def buildAlarmTag (meas : Char) (md : Str) (isSw : Bool) (lvl num : Str) : Str :=
  let pre := if isSw then
      (if md ≠ [] then meas :: (md ++ 'S' :: lvl) else meas :: 'S' :: lvl)
    else
      let base := (lookupStr ALARM_TO_TRANSMITTER [meas]).getD (meas :: "IT".data)
      if md = "X".data then base.take 1 ++ 'X' :: base.drop 1 else base
  pre ++ '-' :: num

/-- Pattern 2 position matcher:
    `([PLTFAVD])([XI]?)(S)?([AO])?(HH|H|LL|L)-([A-Z]?\d+[A-Z]?(?:[-_]\d+)?)\s*$`. -/
def alarmEndTagAt (s : Str) : Option (Char × Str × Bool × Str × Str) := do
  let (meas, md, isSw, lvl, r) ← tagCore s
  let (num, r2) ← numGroup6 r
  if (skipWs r2).isEmpty then some (meas, md, isSw, lvl, upper num) else none

/-- Pattern 3 position matcher:
    `\(tag-([A-Z]?\d+[A-Z]?(?:[-_][A-Z]?\d+)?)-?(?:[Ss]etpoint|[Ss][Pp]|[Ss]et[- ][Pp]oint)`
    (IGNORECASE). -/
def p3At (s : Str) : Option (Char × Str × Bool × Str × Str) :=
  match s with
  | '(' :: r0 => do
    let (meas, md, isSw, lvl, r) ← tagCore r0
    let cont : Str → Str → Option Str := fun num rr =>
      let rr := match rr with | '-' :: t => t | t => t
      let alts :=
        (eatCI "setpoint".data rr) <|> (eatCI "sp".data rr) <|>
        (do
          let t ← eatCI "set".data rr
          let t ← (match t with
                   | c :: t2 => if c = '-' ∨ c = ' ' then some t2 else none
                   | [] => none)
          eatCI "point".data t)
      alts.map (fun _ => num)
    let (b, r1) ← numBase r
    let (b, r1) := match r1 with
                   | c :: r2 => if c.isAlpha then (b ++ [c], r2) else (b, c :: r2)
                   | [] => (b, [])
    let ext : Option Str := do
      match r1 with
      | c :: r2 =>
        if c = '-' ∨ c = '_' then
          let (l, r3) := match r2 with
                         | d :: r4 => if d.isAlpha then ([d], r4) else ([], d :: r4)
                         | [] => (([] : Str), ([] : Str))
          match spanDigits1 r3 with
          | some (ds, rr) => cont (b ++ c :: (l ++ ds)) rr
          | none => none
        else none
      | [] => none
    match ext with
    | some num => some (meas, md, isSw, lvl, upper num)
    | none => (cont b r1).map (fun num => (meas, md, isSw, lvl, upper num))
  | _ => none

/-- Pattern 4 position matcher:
    `\(tag-([A-Z]?\d+[A-Z]?(?:[-_]\d+)?)\)` (IGNORECASE). -/
def p4At (s : Str) : Option (Char × Str × Bool × Str × Str) :=
  match s with
  | '(' :: r0 => do
    let (meas, md, isSw, lvl, r) ← tagCore r0
    let (num, r2) ← numGroup6 r
    match r2 with
    | ')' :: _ => some (meas, md, isSw, lvl, upper num)
    | _ => none
  | _ => none

/-- `extract_tag_from_alarm_description`. -/
def extract_tag_from_alarm_description (description : Str) : Option Str :=
  if description = [] then none else
  match alarmDescP1 description with
  | some tag => some tag
  | none =>
  match searchCap (fun _ s => alarmEndTagAt s) description with
  | some (meas, md, isSw, lvl, num) => some (buildAlarmTag meas md isSw lvl num)
  | none =>
  match searchCap (fun _ s => p3At s) description with
  | some (meas, md, isSw, lvl, num) => some (buildAlarmTag meas md isSw lvl num)
  | none =>
  match searchCap (fun _ s => p4At s) description with
  | some (meas, md, isSw, lvl, num) => some (buildAlarmTag meas md isSw lvl num)
  | none => none

/-- Alternation `SHH|SH|SLL|SL|AHH|AH|ALL|AL` of `extract_alarm_switch_tag`. -/
def easAlts : List Str :=
  ["SHH", "SH", "SLL", "SL", "AHH", "AH", "ALL", "AL"].map String.data

/-- Group 1 of `extract_alarm_switch_tag`:
    `[DPLTFA][DPXIA]?(?:SHH|SH|SLL|SL|AHH|AH|ALL|AL)` (IGNORECASE),
    captured upper-cased, with modifier backtracking. -/
def easG1 (s : Str) : Option (Str × Str) :=
  match s with
  | c0 :: r =>
    if "DPLTFA".data.contains (upc c0) then
      let tryAlt : Str → Str → Option (Str × Str) := fun pre t =>
        easAlts.firstM (fun a => (eatCI a t).map (fun rr => (pre ++ a, rr)))
      match r with
      | c1 :: r2 =>
        if "DPXIA".data.contains (upc c1) then
          match tryAlt [upc c0, upc c1] r2 with
          | some v => some v
          | none => tryAlt [upc c0] (c1 :: r2)
        else tryAlt [upc c0] (c1 :: r2)
      | [] => none
    else none
  | [] => none

/-- `extract_alarm_switch_tag`'s full head pattern
    `^(G1)[-_]?([A-Z]?[-_]?\d+[A-Z]?(?:[-_][A-Z0-9]+)?)\s*` (IGNORECASE);
    returns (G1 upper-cased, raw G2, text after the match). -/
def easMatch (s : Str) : Option (Str × Str × Str) := do
  let (g1, r) ← easG1 s
  let r := optSep r
  let (p1, r1) := match r with
                  | c :: r2 => if c.isAlpha then ([c], r2) else (([] : Str), c :: r2)
                  | [] => (([] : Str), ([] : Str))
  let (p2, r2) := match r1 with
                  | c :: r3 => if c = '-' ∨ c = '_' then (p1 ++ [c], r3) else (p1, c :: r3)
                  | [] => (p1, ([] : Str))
  let (ds, r3) ← spanDigits1 r2
  let (p3, r4) := match r3 with
                  | c :: r5 => if c.isAlpha then (p2 ++ ds ++ [c], r5) else (p2 ++ ds, c :: r5)
                  | [] => (p2 ++ ds, ([] : Str))
  let (g2, r5) := match r4 with
                  | c :: r6 =>
                    if c = '-' ∨ c = '_' then
                      match spanP Char.isAlphanum r6 with
                      | ([], _) => (p3, c :: r6)
                      | (run, rr) => (p3 ++ c :: run, rr)
                    else (p3, c :: r6)
                  | [] => (p3, ([] : Str))
  some (g1, g2, skipWs r5)

/-- `extract_alarm_switch_tag`. -/
def extract_alarm_switch_tag (description : Str) : Option Str × Str :=
  if description = [] then (none, description) else
  match easMatch description with
  | some (g1, g2, rest) =>
    let g2u := (upper g2).map (fun c => if c = '_' then '-' else c)
    let tag := replaceSub "--".data "-".data (g1 ++ '-' :: g2u)
    (some tag, stripWs rest)
  | none => (none, description)

/-- `\b(P)[-_\s]?(\d+[A-Z]?)\b` for a fixed transmitter code `p`
    (on the upper-cased description). -/
def transPat1 (p : Str) (prev : Option Char) (s : Str) : Option (Str × Str) :=
  if boundaryBefore prev then do
    let r ← eatLit p s
    let r := match r with
             | c :: r2 => if c = '-' ∨ c = '_' ∨ isSpaceB c then r2 else c :: r2
             | [] => []
    let (ds, r2) ← spanDigits1 r
    let (num, r3) := match r2 with
                     | c :: r4 => if c.isUpper then (ds ++ [c], r4) else (ds, c :: r4)
                     | [] => (ds, ([] : Str))
    if boundaryAfter r3 then some (p, num) else none
  else none

/-- `\b(P)(\d+[A-Z]?)\b` (the second pattern of the loop). -/
def transPat2 (p : Str) (prev : Option Char) (s : Str) : Option (Str × Str) :=
  if boundaryBefore prev then do
    let r ← eatLit p s
    let (ds, r2) ← spanDigits1 r
    let (num, r3) := match r2 with
                     | c :: r4 => if c.isUpper then (ds ++ [c], r4) else (ds, c :: r4)
                     | [] => (ds, ([] : Str))
    if boundaryAfter r3 then some (p, num) else none
  else none

/-- `extract_transmitter_id`. -/
def extract_transmitter_id (description : Str) : Option Str :=
  if description = [] then none else
  let du := upper description
  TRANSMITTER_CODES.firstM (fun p =>
    match searchCap (transPat1 p) du with
    | some (g1, g2) => some (g1 ++ '-' :: g2)
    | none =>
      match searchCap (transPat2 p) du with
      | some (g1, g2) => some (g1 ++ '-' :: g2)
      | none => none)

/-- Position matcher of `extract_alarm_level_from_description`:
    `([PLTFAVD])([XI]?)(S)?A?(HH|H|LL|L)-[A-Z]?\d+[A-Z]?(?:[-_]\d+)?\s*$`. -/
def levelEndAt (s : Str) : Option (Str × Bool) :=
  match s with
  | c0 :: r =>
    if "PLTFAVD".data.contains (upc c0) then do
      let r := match r with
               | c :: r2 => if upc c = 'X' ∨ upc c = 'I' then r2 else c :: r2
               | [] => []
      let (isSw, r) := match r with
                       | c :: r2 => if upc c = 'S' then (true, r2) else (false, c :: r2)
                       | [] => (false, ([] : Str))
      let r := match r with
               | c :: r2 => if upc c = 'A' then r2 else c :: r2
               | [] => []
      let (lvl, r) ← eatLevelCap r
      let r ← (match r with | '-' :: r2 => some r2 | _ => none)
      let (_, r2) ← numGroup6 r
      if (skipWs r2).isEmpty then some (lvl, isSw) else none
    else none
  | [] => none

/-- `extract_alarm_level_from_description`. -/
def extract_alarm_level_from_description (description : Str) : Option Str × Bool :=
  if description = [] then (none, false) else
  match searchCap (fun _ s => levelEndAt s) description with
  | some (lvl, sw) => (some lvl, sw)
  | none => (none, false)

/-- `extract_alarm_level_from_keywords`. -/
def extract_alarm_level_from_keywords (description : Str) : Option Str × Bool :=
  if description = [] then (none, false) else
  let du := upper description
  let isSw := wordSearchCI "SW".data du || wordSearchCI "SWITCH".data du ||
              wordSearchCI "SWTICH".data du
  if containsSub "HIGH HIGH".data du || containsSub "HI HI".data du then
    (some "HH".data, isSw)
  else if containsSub "LOW LOW".data du || containsSub "LO LO".data du then
    (some "LL".data, isSw)
  else if wordSearchCI "HIGH".data du && !(containsSub "HIGH HIGH".data du) then
    (some "H".data, isSw)
  else if wordSearchCI "LOW".data du && !(containsSub "LOW LOW".data du) then
    (some "L".data, isSw)
  else (none, isSw)

def sepHead : Str → Bool
  | c :: _ => c == '-' || c == '_'
  | [] => false

/-- `(HH|H|LL|L)?[-_]` with backtracking (a failing longer level never blocks
    a shorter one here, see `eatLevelCap`). -/
def levelOptThenSep (t : Str) : Bool :=
  (match eatLevelCap t with
   | some (_, r) => sepHead r
   | none => false) || sepHead t

/-- `^([PLTFAVD])([XI]?)S(HH|H|LL|L)?[-_]` on an upper-cased string. -/
def switchTagIdPre (tu : Str) : Bool :=
  match tu with
  | c0 :: r =>
    if "PLTFAVD".data.contains c0 then
      let tryAt : Str → Bool := fun t =>
        match t with
        | 'S' :: t2 => levelOptThenSep t2
        | _ => false
      match r with
      | c1 :: r2 =>
        if c1 = 'X' ∨ c1 = 'I' then (tryAt r2 || tryAt (c1 :: r2))
        else tryAt (c1 :: r2)
      | [] => false
    else false
  | [] => false

/-- `^([PLTFAVD])([XI]?)IT[-_]` on an upper-cased string. -/
def transTagIdPre (tu : Str) : Bool :=
  match tu with
  | c0 :: r =>
    if "PLTFAVD".data.contains c0 then
      let k : Str → Bool := fun t =>
        match t with
        | 'I' :: 'T' :: rest => sepHead rest
        | _ => false
      match r with
      | c1 :: r2 =>
        if c1 = 'X' ∨ c1 = 'I' then (k r2 || k (c1 :: r2))
        else k (c1 :: r2)
      | [] => false
    else false
  | [] => false

/-- `^([PLTFAVD])([XI]?)A(HH|H|LL|L)[-_]` on an upper-cased string,
    capturing the level. -/
def alarmTagIdPre (tu : Str) : Option Str :=
  match tu with
  | c0 :: r =>
    if "PLTFAVD".data.contains c0 then
      let k : Str → Option Str := fun t =>
        match t with
        | 'A' :: t2 =>
          match eatLevelCap t2 with
          | some (lvl, rest) => if sepHead rest then some lvl else none
          | none => none
        | _ => none
      match r with
      | c1 :: r2 =>
        if c1 = 'X' ∨ c1 = 'I' then (k r2 <|> k (c1 :: r2))
        else k (c1 :: r2)
      | [] => none
    else none
  | [] => none

/-- `^([PLTFAVD])([XI]?)IC[-_]` on an upper-cased string. -/
def ctrlTagIdPre (tu : Str) : Bool :=
  match tu with
  | c0 :: r =>
    if "PLTFAVD".data.contains c0 then
      let k : Str → Bool := fun t =>
        match t with
        | 'I' :: 'C' :: rest => sepHead rest
        | _ => false
      match r with
      | c1 :: r2 =>
        if c1 = 'X' ∨ c1 = 'I' then (k r2 || k (c1 :: r2))
        else k (c1 :: r2)
      | [] => false
    else false
  | [] => false

/-- `^([PLTFAVD])?[XY]V?[-_]|^[PLTF]CV[-_]` on an upper-cased string. -/
def valveTagIdPre (tu : Str) : Bool :=
  (let alt1 : Str → Bool := fun t =>
    match t with
    | c :: r =>
      (c == 'X' || c == 'Y') &&
      (match r with
       | 'V' :: r2 => sepHead r2
       | r2 => sepHead r2)
    | [] => false
  match tu with
  | c0 :: r =>
    if "PLTFAVD".data.contains c0 then (alt1 r || alt1 (c0 :: r))
    else alt1 (c0 :: r)
  | [] => false) ||
  (match tu with
   | c0 :: 'C' :: 'V' :: rest => "PLTF".data.contains c0 && sepHead rest
   | _ => false)

def LEVEL_TO_TND : List (Str × Str) := [
  mkKV "HH" "High High Alarm", mkKV "H" "High Alarm",
  mkKV "L" "Low Alarm", mkKV "LL" "Low Low Alarm"]

/-- `classify_from_tag_id` (enhanced version): `(tnd, is_switch)`. -/
def classify_from_tag_id (tag_id plc_address : Str) : Option Str × Bool :=
  if tag_id = [] then (none, false) else
  let tu := upper tag_id
  if zxsiocPre tu then (some (resolve_valve_tnd [] tag_id [] false).1, false)
  else if switchTagIdPre tu then
    (if is_alarm_address plc_address then (some "Alarm".data, true)
     else (some "Input".data, true))
  else if transTagIdPre tu then (some (resolve_analog_input_tnd tag_id), false)
  else
    match alarmTagIdPre tu with
    | some lvl => (some ((lookupStr LEVEL_TO_TND lvl).getD "Alarm".data), false)
    | none =>
      if ctrlTagIdPre tu then (some "Control Signal".data, false)
      else if valveTagIdPre tu then (some "Control Valve".data, false)
      else (none, false)

/-- `get_alarm_tnd_from_level`. -/
def get_alarm_tnd_from_level (alarm_level : Str) (has_setpoint : Bool)
    (is_switch : Bool) (plc_address : Str) : Str :=
  if is_switch then
    if is_alarm_address plc_address then "Alarm".data else "Input".data
  else
    let base := (lookupStr LEVEL_TO_TND alarm_level).getD "High Alarm".data
    if has_setpoint then base ++ " Setpoint".data else base

/-- `re.search(r'set\s*point|setpoint', description, IGNORECASE)`
    (the second alternative is subsumed by the first). -/
def hasSetpointB (description : Str) : Bool :=
  searchNB (fun s =>
    (do
      let r ← eatCI "set".data s
      let r := skipWs r
      let _ ← eatCI "point".data r
      pure ()).isSome) description

/-! ## The enhanced per-record pipeline (`process_io_to_mtl`,
`step3_convert.py`).  The `pd.isna`/`str()` coercions of the Python code are
modelled away: every field is already a string (missing fields are `""`). -/

/-- One enriched input row, restricted to the fields `process_io_to_mtl`
    reads (`IO Address`, `Description`, `target_id_rack`, `rack_description`;
    units and audit fields do not feed classification, identity or the
    states legend and are omitted). -/
structure IoRow where
  address : Str
  description : Str
  rackTargetId : Str
  rackDescription : Str
  deriving DecidableEq, Repr

/-- STEP 3: tag-id resolution from hint/description, and the equipment text
    that goes with it. -/
def tagStep3 (row : IoRow) : Option Str × Str :=
  if row.rackTargetId ≠ [] then
    (some row.rackTargetId,
     if row.rackDescription ≠ [] then row.rackDescription else row.description)
  else
    match extract_tag_from_alarm_description row.description with
    | some alarmTag => (some alarmTag, row.description)
    | none =>
      match extract_alarm_switch_tag row.description with
      | (some alarmTag, remaining) => (some alarmTag, remaining)
      | (none, _) =>
        match extract_transmitter_id row.description with
        | some transmitterId =>
          (some transmitterId, (extract_tag_id_from_description row.description).2)
        | none =>
          match extract_tag_id_from_description row.description with
          | (some extracted, equipment) => (some extracted, equipment)
          | (none, equipment) => (none, equipment)

/-- STEP 4: leftmost `([A-Z_]+)\[(\d+)\]` in the address. -/
def addrArrayAt (s : Str) : Option Str :=
  let (base, r1) := spanP (fun c => c.isUpper || c == '_') s
  if base = [] then none else
  match r1 with
  | '[' :: r2 =>
    (match spanDigits1 r2 with
     | some (ds, ']' :: _) => some (base ++ '-' :: ds)
     | _ => none)
  | _ => none

/-- STEP 4: leftmost `([A-Z]+)[-_](\d+)` in the address. -/
def addrTagAt (s : Str) : Option Str :=
  let (base, r1) := spanP Char.isUpper s
  if base = [] then none else
  match r1 with
  | c :: r2 =>
    if c = '-' ∨ c = '_' then
      (match spanDigits1 r2 with
       | some (ds, _) => some (base ++ '-' :: ds)
       | none => none)
    else none
  | [] => none

/-- STEP 4: synthesize a tag id from the address when extraction found none. -/
def tagFromAddress (address : Str) : Str :=
  match searchCap (fun _ s => addrArrayAt s) address with
  | some t => t
  | none =>
    match searchCap (fun _ s => addrTagAt s) address with
    | some t => t
    | none =>
      IO_SUFFIXES.foldl
        (fun tid suffix =>
          if suffix.isSuffixOf tid then tid.take (tid.length - suffix.length)
          else tid)
        address

/-- Tag id after STEP 4. -/
def tagStep4 (row : IoRow) : Str :=
  match (tagStep3 row).1 with
  | some t => t
  | none => tagFromAddress row.address

/-- Tag id after STEP 5 (normalization). -/
def tagStep5 (row : IoRow) : Str := normalize_target_id (tagStep4 row)

/-- STEP 5a result (`convert_alarm_tag_to_transmitter`). -/
def convertRes (row : IoRow) : Str × Option Str × Bool :=
  convert_alarm_tag_to_transmitter (tagStep5 row)

/-- Final resolved tag id (STEPs 5a–5c; note `is_valve_tag` is called with
    its default empty description here, as in the source). -/
def finalTagId (row : IoRow) : Str :=
  let t := normalize_transmitter_code (convertRes row).1
  if is_valve_tag t [] then resolve_valve_target_id t else t

/-- STEPs 5a/5d/5e: the resolved alarm level and switch flag. -/
def alarmSw (row : IoRow) : Option Str × Bool :=
  let lvl0 := (convertRes row).2.1
  let sw0 := (convertRes row).2.2
  let (lvl1, sw1) :=
    if lvl0 = none then extract_alarm_level_from_description row.description
    else (lvl0, sw0)
  let (lvl2, sw2) :=
    if lvl1 = none then extract_alarm_level_from_keywords row.description
    else (lvl1, sw1)
  let lvl3 :=
    if lvl2 = none then detect_severity_code (row.address ++ ' ' :: row.description)
    else lvl2
  (lvl3, sw2)

/-- The `'SETPOINT' in desc.upper() or 'SET POINT' in desc.upper()` gate of
    the setpoint branch. -/
def setpointBranchCond (description : Str) : Bool :=
  containsSub "SETPOINT".data (upper description) ||
  containsSub "SET POINT".data (upper description)

/-- STEP 6 equipment type. -/
def eqTypeOf (row : IoRow) : EqType :=
  classify_equipment_type row.address row.description (finalTagId row)

/-- STEP 6: the priority chain, producing `(target_name, states, equipment)`. -/
def classifyStep6 (row : IoRow) : Str × Str × Str :=
  let equipment := (tagStep3 row).2
  let lvl := (alarmSw row).1
  let sw := (alarmSw row).2
  match detect_day_volume row.address row.description with
  | some dayVolume => (dayVolume, [], equipment)
  | none =>
    if detect_hoa_pattern row.description then
      ("Hand/Off/Auto Status".data, [], equipment)
    else if detect_permissive_pattern row.description then
      ("Permissive Status".data, [], equipment)
    else if eqTypeOf row = EqType.motor ∧ lvl = none then
      let (tn, st) := resolve_motor_tnd row.address row.description false
      (tn, st, strip_motor_status_words equipment)
    else if eqTypeOf row = EqType.valve ∧ lvl = none then
      let (tn, st) := resolve_valve_tnd row.address (finalTagId row) row.description false
      (tn, st, strip_valve_status_words equipment)
    else
      match lvl with
      | some l =>
        (get_alarm_tnd_from_level l (hasSetpointB row.description) sw row.address,
         [], equipment)
      | none =>
        if setpointBranchCond row.description then
          ((detect_setpoint_type row.description).getD "Setpoint".data, [], equipment)
        else if is_alarm_address row.address then ("Alarm".data, [], equipment)
        else
          match classify_by_pattern row.address row.description with
          | some c => (c.descr, [], equipment)
          | none => (identify_tag_type row.description, [], equipment)

/-- STEPs 7/7.5: validation against the closed vocabulary, then the tag-id
    rescue fallback. -/
def finalTND (row : IoRow) : Str :=
  if (validate_target_name (classifyStep6 row).1 = "UNCLASSIFIED".data ∨
      validate_target_name (classifyStep6 row).1 = "Spare".data) ∧
      finalTagId row ≠ [] then
    match (classify_from_tag_id (finalTagId row) row.address).1 with
    | some tnd => tnd
    | none => validate_target_name (classifyStep6 row).1
  else validate_target_name (classifyStep6 row).1

/-- The produced MTL entry (the classification-relevant fields). -/
structure MtlEntry where
  target_id : Str
  equipment_description : Str
  target_name_description : Str
  states : Str
  sort_order : Nat
  deriving DecidableEq, Repr

/-- `process_io_to_mtl` (enhanced version, `step3_convert.py`). -/
def process_io_to_mtl (row : IoRow) : MtlEntry :=
  let (_, states, equipment) := classifyStep6 row
  let lvl := (alarmSw row).1
  let equipment :=
    if lvl ≠ none then
      strip_alarm_suffix_from_description
        (clean_alarm_description equipment lvl (hasSetpointB row.description))
    else equipment
  let equipment := strip_scaling_range equipment
  let equipment := enhance_with_isa_measurement equipment (finalTagId row)
  let equipmentFinal := if equipment ≠ [] then capitalize_proper equipment else []
  { target_id := finalTagId row
    equipment_description := equipmentFinal
    target_name_description := finalTND row
    states := states
    sort_order :=
      match classify_by_pattern row.address row.description with
      | some c => c.order
      | none => 999 }

/-! ## The merged-v2 pipeline (`converters/tag_classifier.py` +
`converters/mtl_builder.py`).  Functions identical to the enhanced versions
(`extract_*`, `classify_by_pattern`, `get_alarm_tnd_from_level`,
`is_alarm_address`, …) are shared; only the variants that differ are
re-embedded here. -/

/-- `PLC_SUFFIX_TO_TND`. -/
def PLC_SUFFIX_TO_TND : List (Str × Str) := [
  mkKV ".SP" "Setpoint", mkKV ".PV" "Process Variable",
  mkKV ".OUT" "Control Variable", mkKV ".CV" "Control Variable",
  mkKV ".SWM" "Auto/Manual Mode", mkKV ".KP" "Proportional",
  mkKV ".KI" "Integral", mkKV ".KD" "Derivative",
  mkKV ".SO" "Manual Output", mkKV ".MAXO" "Maximum CV",
  mkKV ".MINO" "Minimum CV", mkKV ".PRE" "Sample Rate Setpoint"]

/-- `DEFAULT_STATES`. -/
def DEFAULT_STATES : List (Str × Str) := [
  mkKV "Lead/Lag Status" "1=P1 Lead;2=P2 Lead",
  mkKV "Lead Lag Status" "1=P1 Lead;2=P2 Lead",
  mkKV "Start Command" "1=Start", mkKV "Stop Command" "1=Stop",
  mkKV "Beacon Status" "0=On;1=Off", mkKV "State" "0=Off;1=On",
  mkKV "Solenoid Output Command" "0=De-energized;1=Energized",
  mkKV "Unit Loaded" "0=Loaded;1=Unloaded"]

/-- `DEFAULT_SCALING`. -/
def DEFAULT_SCALING : List (Str × Str) := [
  mkKV "Open Switch Status" "0=Not Open; 1=Open",
  mkKV "Closed Switch Status" "0=Not Closed; 1=Closed"]

/-- `clean_tag_prefix` (`^\d+:` removal; source name kept modulo the final
    word, which the proof environment reserves). -/
def clean_tag_pre (tag_id : Str) : Str :=
  if tag_id = [] then tag_id else
  match spanDigits1 tag_id with
  | some (_, ':' :: rest) => rest
  | _ => tag_id

/-- Leftmost `\.([A-Za-z0-9_]+)$` match: the last dot whose tail is a
    non-empty word-character run; returns `"." + upper(tail)`. -/
def plcSuffixOf (plc_path : Str) : Option Str :=
  searchCap (fun _ s =>
    match s with
    | '.' :: r => if r ≠ [] ∧ r.all isWordChar then some ('.' :: upper r) else none
    | _ => none) plc_path

/-- `classify_by_plc_suffix`. -/
def classify_by_plc_suffix (plc_path : Str) : Option Str :=
  if plc_path = [] then none else
  match plcSuffixOf plc_path with
  | some suf => lookupStr PLC_SUFFIX_TO_TND suf
  | none => none

/-- `re.search(r'LAG\s*N', desc_upper)`. -/
def lagN (n : Char) (du : Str) : Bool :=
  searchNB (fun s =>
    (do
      let r ← eatLit "LAG".data s
      let r := skipWs r
      match r with
      | c :: _ => if c = n then some () else none
      | [] => none).isSome) du

def findSubIdx (pat : Str) : Str → Option Nat
  | [] => if pat.isEmpty then some 0 else none
  | c :: rest =>
    if pat.isPrefixOf (c :: rest) then some 0
    else (findSubIdx pat rest).map (· + 1)

/-- `'HIGH' in du and 'HIGH' in du[du.find('HIGH')+4:]`. -/
def twiceHigh (du : Str) : Bool :=
  match findSubIdx "HIGH".data du with
  | some i => containsSub "HIGH".data (du.drop (i + 4))
  | none => false

/-- `'LOW' in du and 'LOW' in du[du.find('LOW')+3:]`. -/
def twiceLow (du : Str) : Bool :=
  match findSubIdx "LOW".data du with
  | some i => containsSub "LOW".data (du.drop (i + 3))
  | none => false

/-- `classify_writefloat_setpoint`. -/
def classify_writefloat_setpoint (plc_path description : Str) : Option Str :=
  if plc_path = [] then none else
  let pu := upper plc_path
  if !("WRITEFLOAT[".data.isPrefixOf pu) then none
  else
    let du := upper description
    let sp := containsSub "SETPOINT".data du || containsSub "SET POINT".data du
    if lagN '1' du && containsSub "START".data du then some "Lag1 Start Setpoint".data
    else if lagN '1' du && containsSub "STOP".data du then some "Lag1 Stop Setpoint".data
    else if lagN '2' du && containsSub "START".data du then some "Lag2 Start Setpoint".data
    else if lagN '2' du && containsSub "STOP".data du then some "Lag2 Stop Setpoint".data
    else if lagN '3' du && containsSub "START".data du then some "Lag3 Start Setpoint".data
    else if lagN '3' du && containsSub "STOP".data du then some "Lag3 Stop Setpoint".data
    else if containsSub "LEAD".data du && containsSub "START".data du then
      some "Lead Start Setpoint".data
    else if containsSub "LEAD".data du && containsSub "STOP".data du then
      some "Lead Stop Setpoint".data
    else if containsSub "LAG".data du && containsSub "START".data du then
      some "Lag Start Setpoint".data
    else if containsSub "LAG".data du && containsSub "STOP".data du then
      some "Lag Stop Setpoint".data
    else if containsSub "START".data du && containsSub "SETPOINT".data du then
      some "Start Setpoint".data
    else if containsSub "STOP".data du && containsSub "SETPOINT".data du then
      some "Stop Setpoint".data
    else if twiceHigh du && sp then some "High High Alarm Setpoint".data
    else if twiceLow du && sp then some "Low Low Alarm Setpoint".data
    else if containsSub "HIGH".data du && sp then some "High Alarm Setpoint".data
    else if containsSub "LOW".data du && sp then some "Low Alarm Setpoint".data
    else some "Setpoint".data

/-- `detect_flow_rate`. -/
def detect_flow_rate (description : Str) : Bool :=
  if description = [] then false else
  let du := upper description
  containsSub "FLOW RATE".data du || containsSub "FLOWRATE".data du

/-- `^[PLTFAV]X?S(HH|H)[-_]` on an upper-cased string. -/
def inputHighSwitchPre (tu : Str) : Bool :=
  match tu with
  | c0 :: r =>
    "PLTFAV".data.contains c0 &&
    (let k : Str → Bool := fun t =>
      match t with
      | 'S' :: 'H' :: 'H' :: c :: _ => c == '-' || c == '_'
      | 'S' :: 'H' :: c :: _ => c == '-' || c == '_'
      | _ => false
     match r with
     | 'X' :: r2 => k r2 || k ('X' :: r2)
     | _ => k r)
  | [] => false

/-- `^[PLTFAV]X?S(LL|L)[-_]` on an upper-cased string. -/
def inputLowSwitchPre (tu : Str) : Bool :=
  match tu with
  | c0 :: r =>
    "PLTFAV".data.contains c0 &&
    (let k : Str → Bool := fun t =>
      match t with
      | 'S' :: 'L' :: 'L' :: c :: _ => c == '-' || c == '_'
      | 'S' :: 'L' :: c :: _ => c == '-' || c == '_'
      | _ => false
     match r with
     | 'X' :: r2 => k r2 || k ('X' :: r2)
     | _ => k r)
  | [] => false

/-- `get_default_states`. -/
def get_default_states (tnd target_id : Str) : Str :=
  match lookupStr DEFAULT_STATES tnd with
  | some s => s
  | none =>
    if tnd = "Input".data ∧ target_id ≠ [] then
      let tu := upper target_id
      if inputHighSwitchPre tu then "1=Ok;0=High Level".data
      else if inputLowSwitchPre tu then "1=Ok;0=Low Level".data
      else []
    else []

/-- `get_default_scaling`. -/
def get_default_scaling (tnd : Str) : Str :=
  (lookupStr DEFAULT_SCALING tnd).getD []

/-- `identify_tag_type` (merged variant: title-cased default). -/
def identify_tag_type_merged (description : Str) : Str :=
  if description = [] then "Unclassified".data else
  let du := upper description
  match CLASSIFICATION_KEYWORDS.find? (fun b => b.2.any (fun kw => containsSub kw du)) with
  | some b => titleUnderscore b.1
  | none => "Unclassified".data

/-- `validate_target_name` (merged variant).  It iterates
    `VALID_TARGET_NAMES_MERGED = list(set(VALID_TARGET_NAMES))`, whose order
    is a set-iteration permutation; since the entries of
    `VALID_TARGET_NAMES` are pairwise distinct case-insensitively, the result
    does not depend on that order and the original order is used here. -/
def validate_target_name_merged (t : Str) : Str :=
  if t = [] then "UNCLASSIFIED".data else validateAux t VALID_TARGET_NAMES

/-- `detect_day_volume` (merged variant: bare `TODAY` suffices). -/
def detect_day_volume_merged (address description : Str) : Option Str :=
  let au := upper address
  let du := upper description
  if containsSub "YESTERDAY".data du then some "Day 1 Volume".data
  else if containsSub "TODAY".data du then some "Day 0 Volume".data
  else if containsSub "FLOW".data au &&
          (containsSub "DAY0".data au || containsSub ".DAY0".data au) then
    some "Day 0 Volume".data
  else if containsSub "FLOW".data au &&
          (containsSub "DAY1".data au || containsSub ".DAY1".data au) then
    some "Day 1 Volume".data
  else if dayRegexSearch description '0' then some "Day 0 Volume".data
  else if dayRegexSearch description '1' then some "Day 1 Volume".data
  else none

/-- `^([PLTFAVD])([XI]?)S(HH|H|LL|L)-(.+)$` (IGNORECASE; merged variant with
    a mandatory level); yields the level. -/
def matchSwitchTagM (s : Str) : Option Str :=
  match s with
  | c0 :: rest =>
    if "PLTFAVD".data.contains (upc c0) then
      let tryAt : Str → Option Str := fun r =>
        match r with
        | c :: r2 =>
          if upc c = 'S' then
            match matchLevelDash r2 with
            | some (lvl, rest2) => if rest2 ≠ [] then some lvl else none
            | none => none
          else none
        | [] => none
      match rest with
      | c1 :: r2 =>
        if upc c1 = 'X' ∨ upc c1 = 'I' then
          match tryAt r2 with
          | some v => some v
          | none => tryAt (c1 :: r2)
        else tryAt (c1 :: r2)
      | [] => none
    else none
  | [] => none

/-- `convert_alarm_tag_to_transmitter` (merged variant: mandatory switch
    level, no differential-pressure branch). -/
def convert_alarm_tag_to_transmitter_merged (tag_id : Str) : Str × Option Str × Bool :=
  if tag_id = [] then (tag_id, none, false) else
  match matchSwitchTagM tag_id with
  | some lvl => (tag_id, some lvl, true)
  | none =>
  match matchAlarmTag tag_id with
  | some (meas, md, lvl, number) =>
    let base := (lookupStr ALARM_TO_TRANSMITTER [meas]).getD (meas :: "IT".data)
    let tpre := if md ≠ [] then base.take 1 ++ md ++ base.drop 1 else base
    (tpre ++ '-' :: number, some lvl, false)
  | none => (tag_id, none, false)

/-- `SETPOINT` literal head. -/
def setpointLit (s : Str) : Bool := "SETPOINT".data.isPrefixOf s

/-- `detect_setpoint_type` (merged variant: gate and patterns use the
    literal `SETPOINT`; the length-descending stable sort again preserves
    the source order). -/
def detect_setpoint_type_merged (description : Str) : Option Str :=
  if description = [] then none else
  let du := upper description
  if !(containsSub "SETPOINT".data du) then none
  else
    let p1 := fun s => match after2 "HIGH".data "HIGH".data s with
                       | some r => eatOptAlarm setpointLit r
                       | none => false
    let p2 := fun s => eatOptAlarm (fun r =>
                         match after2 "HIGH".data "HIGH".data r with
                         | some r2 => setpointLit r2
                         | none => false) s
    let p3 := fun s => match after2 "LOW".data "LOW".data s with
                       | some r => eatOptAlarm setpointLit r
                       | none => false
    let p4 := fun s => eatOptAlarm (fun r =>
                         match after2 "LOW".data "LOW".data r with
                         | some r2 => setpointLit r2
                         | none => false) s
    let p5 := fun s => match eatLit "HIGH".data s with
                       | some r => eatOptAlarm setpointLit (skipWs r)
                       | none => false
    let p6 := fun s => eatOptAlarm (fun r =>
                         match eatLit "HIGH".data r with
                         | some r2 => setpointLit (skipWs r2)
                         | none => false) s
    let p7 := fun s => match eatLit "LOW".data s with
                       | some r => eatOptAlarm setpointLit (skipWs r)
                       | none => false
    let p8 := fun s => eatOptAlarm (fun r =>
                         match eatLit "LOW".data r with
                         | some r2 => setpointLit (skipWs r2)
                         | none => false) s
    if searchNB p1 du then some "High High Alarm Setpoint".data
    else if searchNB p2 du then some "High High Alarm Setpoint".data
    else if searchNB p3 du then some "Low Low Alarm Setpoint".data
    else if searchNB p4 du then some "Low Low Alarm Setpoint".data
    else if searchNB p5 du then some "High Alarm Setpoint".data
    else if searchNB p6 du then some "High Alarm Setpoint".data
    else if searchNB p7 du then some "Low Alarm Setpoint".data
    else if searchNB p8 du then some "Low Alarm Setpoint".data
    else some "Setpoint".data

/-- `classify_from_tag_id` (merged variant: no valve-position-switch branch;
    transmitters are always "Process Value"). -/
def classify_from_tag_id_merged (tag_id plc_address : Str) : Option Str × Bool :=
  if tag_id = [] then (none, false) else
  let tu := upper tag_id
  if switchTagIdPre tu then
    (if is_alarm_address plc_address then (some "Alarm".data, true)
     else (some "Input".data, true))
  else if transTagIdPre tu then (some "Process Value".data, false)
  else
    match alarmTagIdPre tu with
    | some lvl => (some ((lookupStr LEVEL_TO_TND lvl).getD "Alarm".data), false)
    | none =>
      if ctrlTagIdPre tu then (some "Control Signal".data, false)
      else if valveTagIdPre tu then (some "Control Valve".data, false)
      else (none, false)

/-- Merged tag id (no normalization beyond `clean_tag_prefix` and alarm
    conversion; the description-driven resolution is the same code as the
    enhanced `tagStep3`/`tagFromAddress`). -/
def mergedTagPre (row : IoRow) : Str :=
  clean_tag_pre
    (match (tagStep3 row).1 with
     | some t => t
     | none => tagFromAddress row.address)

def mergedConvert (row : IoRow) : Str × Option Str × Bool :=
  convert_alarm_tag_to_transmitter_merged (mergedTagPre row)

def mergedFinalTag (row : IoRow) : Str := (mergedConvert row).1

/-- Merged alarm level and switch flag (no raw-severity step). -/
def mergedAlarmSw (row : IoRow) : Option Str × Bool :=
  let lvl0 := (mergedConvert row).2.1
  let sw0 := (mergedConvert row).2.2
  let (lvl1, sw1) :=
    if lvl0 = none then extract_alarm_level_from_description row.description
    else (lvl0, sw0)
  if lvl1 = none then extract_alarm_level_from_keywords row.description
  else (lvl1, sw1)

/-- The merged priority chain for `target_name` (before validation). -/
def mergedTNDpre (row : IoRow) : Str :=
  match classify_by_plc_suffix row.address with
  | some t => t
  | none =>
  match detect_day_volume_merged row.address row.description with
  | some dv => dv
  | none =>
  if detect_flow_rate row.description then "Rate".data
  else
    match (if is_writefloat_address row.address then
             classify_writefloat_setpoint row.address row.description
           else none) with
    | some wf => wf
    | none =>
      if detect_permissive_pattern row.description then "Permissive Status".data
      else
        match (mergedAlarmSw row).1 with
        | some l =>
          get_alarm_tnd_from_level l (hasSetpointB row.description)
            (mergedAlarmSw row).2 row.address
        | none =>
          if setpointBranchCond row.description then
            (detect_setpoint_type_merged row.description).getD "Setpoint".data
          else if is_alarm_address row.address then "Alarm".data
          else
            match classify_by_pattern row.address row.description with
            | some c => c.descr
            | none => identify_tag_type_merged row.description

/-- Merged validated TND with the tag-id rescue fallback. -/
def mergedTND (row : IoRow) : Str :=
  let v := validate_target_name_merged (mergedTNDpre row)
  if (v = "UNCLASSIFIED".data ∨ v = "Spare".data) ∧ mergedFinalTag row ≠ [] then
    match (classify_from_tag_id_merged (mergedFinalTag row) row.address).1 with
    | some t => t
    | none => v
  else v

/-- The merged MTL entry (classification-relevant fields; the text fields,
    which no claim against this variant mentions, are omitted). -/
structure MtlEntryMerged where
  target_id : Str
  target_name_description : Str
  states : Str
  target_scaling : Str
  deriving DecidableEq, Repr

/-- `process_io_to_mtl` (merged v2 version, `converters/mtl_builder.py`). -/
def process_io_to_mtl_merged (row : IoRow) : MtlEntryMerged :=
  { target_id := mergedFinalTag row
    target_name_description := mergedTND row
    states := get_default_states (mergedTND row) (mergedFinalTag row)
    target_scaling := get_default_scaling (mergedTND row) }

/-! ## Helper lemmas -/

theorem validateAux_mem (t : Str) :
    ∀ l : List Str, validateAux t l = "UNCLASSIFIED".data ∨ validateAux t l ∈ l
  | [] => Or.inl rfl
  | v :: rest => by
    unfold validateAux
    split
    · exact Or.inr (List.mem_cons_self v rest)
    · rcases validateAux_mem t rest with h | h
      · exact Or.inl h
      · exact Or.inr (List.mem_cons_of_mem v h)

theorem validate_mem (t : Str) : validate_target_name t ∈ VALID_TARGET_NAMES := by
  unfold validate_target_name
  split
  · decide
  · rcases validateAux_mem t VALID_TARGET_NAMES with h | h
    · rw [h]; decide
    · exact h

theorem lookupStr_getD_mem (l : List (Str × Str)) (k d : Str) :
    (lookupStr l k).getD d = d ∨ (lookupStr l k).getD d ∈ l.map (·.2) := by
  unfold lookupStr
  cases h : l.find? (fun p => p.1 == k) with
  | none => left; rfl
  | some p =>
    right
    simpa using List.mem_map_of_mem (·.2) (List.mem_of_find?_eq_some h)

theorem resolve_valve_tnd_fst_cases (tn tid de : Str) (io : Bool) :
    (resolve_valve_tnd tn tid de io).1 = "Output Command".data ∨
    (resolve_valve_tnd tn tid de io).1 = "Open Switch Status".data ∨
    (resolve_valve_tnd tn tid de io).1 = "Closed Switch Status".data ∨
    (resolve_valve_tnd tn tid de io).1 = "Switch Status".data := by
  unfold resolve_valve_tnd
  dsimp only
  repeat' split
  all_goals simp

theorem resolve_analog_input_tnd_cases (tid : Str) :
    resolve_analog_input_tnd tid = "Rate".data ∨
    resolve_analog_input_tnd tid = "Process Value".data := by
  unfold resolve_analog_input_tnd
  split <;> simp

theorem level_tnd_mem (lvl : Str) :
    (lookupStr LEVEL_TO_TND lvl).getD "Alarm".data ∈ VALID_TARGET_NAMES := by
  rcases lookupStr_getD_mem LEVEL_TO_TND lvl "Alarm".data with h | h
  · rw [h]; decide
  · have hv : LEVEL_TO_TND.map (·.2) =
        (["High High Alarm", "High Alarm", "Low Alarm",
          "Low Low Alarm"].map String.data) := by decide
    rw [hv] at h
    simp only [List.map_cons, List.map_nil, List.mem_cons, List.not_mem_nil,
      or_false] at h
    rcases h with h | h | h | h <;> (rw [h]; decide)

theorem classify_from_tag_id_fst_mem (tag addr t : Str)
    (h : (classify_from_tag_id tag addr).1 = some t) : t ∈ VALID_TARGET_NAMES := by
  unfold classify_from_tag_id at h
  split at h
  · simp at h
  · dsimp only at h
    split at h
    · simp only [Option.some.injEq] at h
      rcases resolve_valve_tnd_fst_cases [] tag [] false with hm | hm | hm | hm <;>
        (rw [hm] at h; rw [← h]; decide)
    · split at h
      · split at h <;> (simp only [Option.some.injEq] at h; rw [← h]; decide)
      · split at h
        · simp only [Option.some.injEq] at h
          rcases resolve_analog_input_tnd_cases tag with hm | hm <;>
            (rw [hm] at h; rw [← h]; decide)
        · split at h
          · next lvl _ =>
            simp only [Option.some.injEq] at h
            rw [← h]
            exact level_tnd_mem lvl
          · split at h
            · simp only [Option.some.injEq] at h; rw [← h]; decide
            · split at h
              · simp only [Option.some.injEq] at h; rw [← h]; decide
              · simp at h

theorem day_values (a d v : Str) (h : detect_day_volume a d = some v) :
    v = "Day 0 Volume".data ∨ v = "Day 1 Volume".data := by
  unfold detect_day_volume at h
  dsimp only at h
  by_cases h1 : containsSub "YESTERDAY".data (upper d) = true
  · rw [if_pos h1] at h; exact Or.inr (Option.some.inj h).symm
  rw [if_neg h1] at h
  by_cases h2 : (containsSub "TODAY".data (upper d) && containsSub "VOLUME".data (upper d)) = true
  · rw [if_pos h2] at h; exact Or.inl (Option.some.inj h).symm
  rw [if_neg h2] at h
  by_cases h3 : (containsSub "FLOW".data (upper a) &&
      (containsSub "DAY0".data (upper a) || containsSub ".DAY0".data (upper a))) = true
  · rw [if_pos h3] at h; exact Or.inl (Option.some.inj h).symm
  rw [if_neg h3] at h
  by_cases h4 : (containsSub "FLOW".data (upper a) &&
      (containsSub "DAY1".data (upper a) || containsSub ".DAY1".data (upper a))) = true
  · rw [if_pos h4] at h; exact Or.inr (Option.some.inj h).symm
  rw [if_neg h4] at h
  by_cases h5 : dayRegexSearch d '0' = true
  · rw [if_pos h5] at h; exact Or.inl (Option.some.inj h).symm
  rw [if_neg h5] at h
  by_cases h6 : dayRegexSearch d '1' = true
  · rw [if_pos h6] at h; exact Or.inr (Option.some.inj h).symm
  rw [if_neg h6] at h
  exact absurd h (by simp)

theorem mapFix (f : Char → Char) : ∀ l : Str, (∀ c ∈ l, f c = c) → l.map f = l
  | [], _ => rfl
  | c :: r, h => by
    rw [List.map_cons, h c (List.mem_cons_self c r),
        mapFix f r (fun x hx => h x (List.mem_cons_of_mem c hx))]

theorem dropWhile_all_false (p : Char → Bool) :
    ∀ l : Str, (∀ c ∈ l, p c = false) → l.dropWhile p = l
  | [], _ => rfl
  | c :: r, h => by
    rw [List.dropWhile_cons, h c (List.mem_cons_self c r)]
    simp

theorem stripWs_id (s : Str) (h : ∀ c ∈ s, isSpaceB c = false) : stripWs s = s := by
  unfold stripWs
  rw [dropWhile_all_false _ s h,
      dropWhile_all_false _ s.reverse (fun c hc => h c (List.mem_reverse.mp hc)),
      List.reverse_reverse]

theorem mem_insertLenDesc {x y : Str × PatInfo} :
    ∀ {l : List (Str × PatInfo)}, x ∈ insertLenDesc y l → x = y ∨ x ∈ l := by
  intro l
  induction l with
  | nil =>
    intro h
    exact Or.inl (List.mem_singleton.mp h)
  | cons z zs ih =>
    intro h
    unfold insertLenDesc at h
    split at h
    · rcases List.mem_cons.mp h with rfl | h2
      · exact Or.inl rfl
      · exact Or.inr h2
    · rcases List.mem_cons.mp h with rfl | h2
      · exact Or.inr (List.mem_cons_self _ _)
      · rcases ih h2 with h3 | h3
        · exact Or.inl h3
        · exact Or.inr (List.mem_cons_of_mem _ h3)

theorem mem_sortLenDesc {x : Str × PatInfo} :
    ∀ {l : List (Str × PatInfo)}, x ∈ sortLenDesc l → x ∈ l := by
  intro l
  induction l with
  | nil =>
    intro h
    exact absurd h (List.not_mem_nil x)
  | cons z zs ih =>
    intro h
    unfold sortLenDesc at h
    rcases mem_insertLenDesc h with rfl | h2
    · exact List.mem_cons_self _ _
    · exact List.mem_cons_of_mem _ (ih h2)

theorem findPattern_none (du tu : Str) :
    ∀ l : List (Str × PatInfo),
      (∀ p ∈ l, containsSub p.1 du = false ∧ containsSub p.1 tu = false) →
      findPattern du tu l = none
  | [], _ => rfl
  | (name, info) :: rest, h => by
    unfold findPattern
    have h1 : containsSub name du = false ∧ containsSub name tu = false :=
      h (name, info) (List.mem_cons_self _ _)
    rw [if_neg (by simp [h1.1, h1.2])]
    exact findPattern_none du tu rest (fun p hp => h p (List.mem_cons_of_mem _ hp))

theorem findSimple_descr (du tu descr : Str) (c : Classification) :
    ∀ l : List (Str × Str), findSimple du tu descr l = some c → c.descr = descr
  | [], h => absurd h (by simp [findSimple])
  | (name, ty) :: rest, h => by
    unfold findSimple at h
    split at h
    · cases h
      rfl
    · exact findSimple_descr du tu descr c rest h

theorem findSimple_isSome (du tu descr : Str) (q : Str × Str)
    (hm : (containsSub q.1 du || containsSub q.1 tu) = true) :
    ∀ l : List (Str × Str), q ∈ l → (findSimple du tu descr l).isSome = true
  | [], hq => absurd hq (List.not_mem_nil q)
  | (name, ty) :: rest, hq => by
    unfold findSimple
    split
    · rfl
    · rcases List.mem_cons.mp hq with rfl | h2
      · rename_i hcond
        exact absurd hm hcond
      · exact findSimple_isSome du tu descr q hm rest h2

/-! ## Claims -/

/-- Claim C1: for every input record (including empty description and/or
    empty address) the enhanced `process_io_to_mtl` produces an entry whose
    `target_name_description` is a member of the closed vocabulary
    `VALID_TARGET_NAMES`; no rule — including the tag-id rescue fallback that
    runs after validation — produces a value outside that vocabulary. -/
theorem C1_closed_vocabulary (row : IoRow) :
    (process_io_to_mtl row).target_name_description ∈ VALID_TARGET_NAMES := by
  show finalTND row ∈ VALID_TARGET_NAMES
  unfold finalTND
  split
  · cases hc : (classify_from_tag_id (finalTagId row) row.address).1 with
    | none => exact validate_mem _
    | some t => exact classify_from_tag_id_fst_mem _ _ _ hc
  · exact validate_mem _

/-- Claim C3: whenever `detect_day_volume` returns a non-null result, the
    final `target_name_description` of the enhanced pipeline is exactly that
    day-volume value (even if an alarm-severity pattern also matches);
    day-volume classification pre-empts alarm classification. -/
theorem C3_day_volume_preempts (row : IoRow) (v : Str)
    (h : detect_day_volume row.address row.description = some v) :
    (process_io_to_mtl row).target_name_description = v := by
  have h6 : (classifyStep6 row).1 = v := by
    unfold classifyStep6
    rw [h]
  show finalTND row = v
  unfold finalTND
  rw [h6]
  rcases day_values _ _ _ h with rfl | rfl
  · rw [show validate_target_name "Day 0 Volume".data = "Day 0 Volume".data from by decide]
    rw [if_neg (fun hc => by rcases hc.1 with h1 | h1 <;> exact absurd h1 (by decide))]
  · rw [show validate_target_name "Day 1 Volume".data = "Day 1 Volume".data from by decide]
    rw [if_neg (fun hc => by rcases hc.1 with h1 | h1 <;> exact absurd h1 (by decide))]

/-- Witness for C3: a record whose description matches both the day-volume
    rule and an alarm-severity keyword pattern is classified as Day 1 Volume. -/
theorem C3_witness :
    detect_day_volume [] "YESTERDAY HIGH ALARM".data = some "Day 1 Volume".data ∧
    (process_io_to_mtl ⟨[], "YESTERDAY HIGH ALARM".data, [], []⟩).target_name_description =
      "Day 1 Volume".data :=
  ⟨by decide,
   C3_day_volume_preempts ⟨[], "YESTERDAY HIGH ALARM".data, [], []⟩
     "Day 1 Volume".data (by decide)⟩

/-- Counterexample for C4 as frozen: a description containing the literal
    word `TODAY` (and nothing else) is NOT detected as "Day 0 Volume" by the
    enhanced `detect_day_volume`, because the `TODAY` branch additionally
    requires the substring `VOLUME`. -/
theorem C4_counterexample :
    containsSub "TODAY".data (upper "TODAY".data) = true ∧
    detect_day_volume [] "TODAY".data ≠ some "Day 0 Volume".data := by
  constructor
  · decide
  · decide

/-- Claim C4 (amended): a description containing `YESTERDAY` yields
    "Day 1 Volume"; a description containing `TODAY` *and* `VOLUME` (and not
    `YESTERDAY`, which is checked first) yields "Day 0 Volume"; and the
    address-based `DAY0`/`DAY1` check is consulted only when the address
    contains `FLOW` — an address without `FLOW` never affects the result. -/
theorem C4_amended (a d : Str) :
    (containsSub "YESTERDAY".data (upper d) = true →
      detect_day_volume a d = some "Day 1 Volume".data) ∧
    (containsSub "TODAY".data (upper d) = true →
     containsSub "VOLUME".data (upper d) = true →
     containsSub "YESTERDAY".data (upper d) = false →
      detect_day_volume a d = some "Day 0 Volume".data) ∧
    (containsSub "FLOW".data (upper a) = false →
      detect_day_volume a d = detect_day_volume [] d) := by
  refine ⟨fun h => ?_, fun h1 h2 h3 => ?_, fun h => ?_⟩
  · unfold detect_day_volume
    rw [if_pos h]
  · unfold detect_day_volume
    rw [if_neg (by simp [h3]), if_pos (by simp [h1, h2])]
  · have h0 : containsSub "FLOW".data (upper ([] : Str)) = false := by decide
    unfold detect_day_volume
    simp only [h, h0, Bool.false_and, Bool.false_eq_true, if_false]

/-- Witness for the amended C4. -/
theorem C4_witness :
    (containsSub "TODAY".data (upper "TODAY VOLUME".data) = true ∧
     containsSub "VOLUME".data (upper "TODAY VOLUME".data) = true ∧
     containsSub "YESTERDAY".data (upper "TODAY VOLUME".data) = false) ∧
    detect_day_volume "PLC".data "TODAY VOLUME".data = some "Day 0 Volume".data :=
  ⟨⟨by decide, by decide, by decide⟩,
   (C4_amended "PLC".data "TODAY VOLUME".data).2.1 (by decide) (by decide) (by decide)⟩

/-- Counterexample for C5 as frozen: the description `"HOAX"` contains the
    substring `HOA` and is not a day volume, yet the final classification is
    "UNCLASSIFIED" — `detect_hoa_pattern` requires `HOA` as a standalone word
    (`\bHOA\b`), not as a bare substring. -/
theorem C5_counterexample :
    containsSub "HOA".data (upper "HOAX".data) = true ∧
    detect_day_volume [] "HOAX".data = none ∧
    (process_io_to_mtl ⟨[], "HOAX".data, [], []⟩).target_name_description =
      "UNCLASSIFIED".data := by
  refine ⟨by decide, by decide, ?_⟩
  decide

/-- Claim C5 (amended): for every record that is not classified as a day
    volume and whose description matches `detect_hoa_pattern` (contains `HOA`
    as a standalone word, or the substrings `HAND`+`OFF`+`AUTO`, or a
    slash/dash-separated `HAND/OFF/AUTO` or `H/O/A` token), the final
    `target_name_description` is "Hand/Off/Auto Status". -/
theorem C5_amended (row : IoRow)
    (hday : detect_day_volume row.address row.description = none)
    (hhoa : detect_hoa_pattern row.description = true) :
    (process_io_to_mtl row).target_name_description = "Hand/Off/Auto Status".data := by
  have h6 : (classifyStep6 row).1 = "Hand/Off/Auto Status".data := by
    unfold classifyStep6
    rw [hday]
    simp only [hhoa, if_true]
  show finalTND row = "Hand/Off/Auto Status".data
  unfold finalTND
  rw [h6]
  rw [show validate_target_name "Hand/Off/Auto Status".data =
        "Hand/Off/Auto Status".data from by decide]
  rw [if_neg (fun hc => by rcases hc.1 with h1 | h1 <;> exact absurd h1 (by decide))]

/-- Witness for the amended C5. -/
theorem C5_witness :
    detect_day_volume [] "PUMP HOA".data = none ∧
    detect_hoa_pattern "PUMP HOA".data = true ∧
    (process_io_to_mtl ⟨[], "PUMP HOA".data, [], []⟩).target_name_description =
      "Hand/Off/Auto Status".data :=
  ⟨by decide, by decide,
   C5_amended ⟨[], "PUMP HOA".data, [], []⟩ (by decide) (by decide)⟩

/-- Claim C6: `convert_alarm_tag_to_transmitter` maps the measurement-alarm
    tag "PAH-310" to the transmitter tag "PIT-310" with severity H and
    `is_switch = false`, and leaves the switch tag "PSH-310" unchanged with
    severity H and `is_switch = true`. -/
theorem C6_alarm_roundtrip :
    convert_alarm_tag_to_transmitter "PAH-310".data =
      ("PIT-310".data, some "H".data, false) ∧
    convert_alarm_tag_to_transmitter "PSH-310".data =
      ("PSH-310".data, some "H".data, true) := by
  constructor
  · decide
  · decide

/-- Claim C2 (code bug): for Scenario B (address `WRITEFLOAT[12]`, description
    `PUMP P-1 LEAD START SETPOINT`, no hints) the spec promises
    "Lead Start Setpoint", and `classify_writefloat_setpoint` indeed produces
    exactly that string — but it is absent from the active
    `VALID_TARGET_NAMES` vocabulary, so the merged pipeline (the only one that
    calls `classify_writefloat_setpoint`) invalidates it to "UNCLASSIFIED",
    while the enhanced pipeline never consults the writefloat classifier and
    returns "Run Status" via the motor branch.  Neither pipeline can ever
    output the value this classifier was written to produce. -/
theorem C2_scenarioB_eval :
    classify_writefloat_setpoint "WRITEFLOAT[12]".data
        "PUMP P-1 LEAD START SETPOINT".data = some "Lead Start Setpoint".data ∧
    "Lead Start Setpoint".data ∉ VALID_TARGET_NAMES ∧
    (process_io_to_mtl_merged ⟨"WRITEFLOAT[12]".data,
        "PUMP P-1 LEAD START SETPOINT".data, [], []⟩).target_name_description =
      "UNCLASSIFIED".data ∧
    (process_io_to_mtl ⟨"WRITEFLOAT[12]".data,
        "PUMP P-1 LEAD START SETPOINT".data, [], []⟩).target_name_description =
      "Run Status".data := by
  refine ⟨by decide, by decide, by decide, by decide⟩

/-- Counterexample for C7 as frozen: for Scenario C (address
    `RACK00_SLOT06[10]!RD`, no description, no hints) the synthesized tag id
    is NOT `RACK00_SLOT06-10` — the array rule `([A-Z_]+)\[(\d+)\]` cannot
    match a base containing digits (`RACK00_SLOT06`), so the raw address
    (minus the `!RD` suffix) survives into normalization. -/
theorem C7_counterexample :
    (process_io_to_mtl ⟨"RACK00_SLOT06[10]!RD".data, [], [], []⟩).target_id ≠
      "RACK00_SLOT06-10".data := by
  decide

/-- Claim C7 (amended): for Scenario C the tag id falls back to the address
    with the IO suffix stripped and underscores normalized to dashes,
    keeping the bracketed index: `RACK00-SLOT06[10]`; the
    `target_name_description` is "UNCLASSIFIED" as claimed. -/
theorem C7_amended :
    (process_io_to_mtl ⟨"RACK00_SLOT06[10]!RD".data, [], [], []⟩).target_id =
      "RACK00-SLOT06[10]".data ∧
    (process_io_to_mtl ⟨"RACK00_SLOT06[10]!RD".data, [],
        [], []⟩).target_name_description = "UNCLASSIFIED".data := by
  exact ⟨by decide, by decide⟩

/-- Counterexample for C8 as frozen: two records whose final
    `target_name_description` coincide (both "Input") but whose
    `default_states` legends differ — `get_default_states` inspects the tag
    id (`PSH-…` vs `PSL-…`) when the name is "Input", so the legend is NOT a
    function of the target name alone. -/
theorem C8_counterexample :
    (process_io_to_mtl_merged ⟨"PLC1".data, "PSH-100 VESSEL".data,
        [], []⟩).target_name_description =
      (process_io_to_mtl_merged ⟨"PLC2".data, "PSL-100 VESSEL".data,
        [], []⟩).target_name_description ∧
    (process_io_to_mtl_merged ⟨"PLC1".data, "PSH-100 VESSEL".data,
        [], []⟩).states ≠
      (process_io_to_mtl_merged ⟨"PLC2".data, "PSL-100 VESSEL".data,
        [], []⟩).states := by
  exact ⟨by decide, by decide⟩

/-- Claim C8 (amended): the `default_states` legend is a function of the pair
    (`target_name_description`, `target_id`): any two records agreeing on
    both fields of the output receive the same legend, regardless of their
    addresses or descriptions. -/
theorem C8_amended (r1 r2 : IoRow)
    (ht : (process_io_to_mtl_merged r1).target_name_description =
          (process_io_to_mtl_merged r2).target_name_description)
    (hi : (process_io_to_mtl_merged r1).target_id =
          (process_io_to_mtl_merged r2).target_id) :
    (process_io_to_mtl_merged r1).states = (process_io_to_mtl_merged r2).states := by
  show get_default_states (mergedTND r1) (mergedFinalTag r1) =
       get_default_states (mergedTND r2) (mergedFinalTag r2)
  have ht' : mergedTND r1 = mergedTND r2 := ht
  have hi' : mergedFinalTag r1 = mergedFinalTag r2 := hi
  rw [ht', hi']

/-- Witness for the amended C8: two records differing in address agree on
    name and tag id, hence on the states legend. -/
theorem C8_witness :
    (process_io_to_mtl_merged ⟨"A".data, [], "PIT-200".data, []⟩).states =
    (process_io_to_mtl_merged ⟨"B".data, [], "PIT-200".data, []⟩).states :=
  C8_amended ⟨"A".data, [], "PIT-200".data, []⟩ ⟨"B".data, [], "PIT-200".data, []⟩
    (by decide) (by decide)

set_option maxRecDepth 8000 in
set_option maxHeartbeats 2000000 in
/-- Claim C9: for every record whose description is
    `"(0-100%) Separator Pressure Transmitter"` and whose tag id resolves via
    the hint to a PIT-prefixed tag `PIT-<digits>`, the final
    `equipment_description` is exactly "Separator Pressure": the
    parenthesized scaling range and the standalone word `Transmitter` are
    stripped and the remaining whitespace collapsed. -/
theorem C9_scaling_strip (d : Str) (hne : d ≠ [])
    (hdig : ∀ c ∈ d, c ∈ "0123456789".data) :
    (process_io_to_mtl ⟨[], "(0-100%) Separator Pressure Transmitter".data,
        'P' :: 'I' :: 'T' :: '-' :: d, []⟩).equipment_description =
      "Separator Pressure".data := by
  have hfix : ∀ c ∈ d,
      upc c = c ∧ (if c = '_' then '-' else c) = c ∧ isSpaceB c = false := by
    intro c hc
    have h10 := hdig c hc
    fin_cases h10 <;> exact ⟨by decide, by decide, by decide⟩
  have hmapd : d.map (fun c => if c = '_' then '-' else c) = d :=
    mapFix _ d (fun c hc => (hfix c hc).2.1)
  have hupd : d.map upc = d := mapFix _ d (fun c hc => (hfix c hc).1)
  have htagns : ∀ c ∈ ('P' :: 'I' :: 'T' :: '-' :: d), isSpaceB c = false := by
    intro c hc
    simp only [List.mem_cons] at hc
    rcases hc with rfl | rfl | rfl | rfl | hc
    · decide
    · decide
    · decide
    · decide
    · exact (hfix c hc).2.2
  have h5 : normalize_target_id ('P' :: 'I' :: 'T' :: '-' :: d) =
      'P' :: 'I' :: 'T' :: '-' :: d := by
    unfold normalize_target_id
    rw [if_neg (by simp)]
    dsimp only
    rw [List.map_cons, List.map_cons, List.map_cons, List.map_cons, hmapd]
    rw [show (if 'P' = '_' then '-' else 'P') = 'P' from by decide,
        show (if 'I' = '_' then '-' else 'I') = 'I' from by decide,
        show (if 'T' = '_' then '-' else 'T') = 'T' from by decide,
        show (if '-' = '_' then '-' else '-') = '-' from by decide]
    show (if hasChar '-' (stripWs (upper ('P' :: 'I' :: 'T' :: '-' :: d))) = true
          then _ else _) = _
    rw [show upper ('P' :: 'I' :: 'T' :: '-' :: d) =
          upc 'P' :: upc 'I' :: upc 'T' :: upc '-' :: d.map upc from rfl]
    rw [hupd,
        show upc 'P' = 'P' from by decide, show upc 'I' = 'I' from by decide,
        show upc 'T' = 'T' from by decide, show upc '-' = '-' from by decide]
    rw [stripWs_id _ htagns]
    rw [if_pos (show hasChar '-' ('P' :: 'I' :: 'T' :: '-' :: d) = true from rfl)]
  have hrow5 : tagStep5 (⟨[], "(0-100%) Separator Pressure Transmitter".data,
      'P' :: 'I' :: 'T' :: '-' :: d, []⟩ : IoRow) = 'P' :: 'I' :: 'T' :: '-' :: d := by
    show normalize_target_id ('P' :: 'I' :: 'T' :: '-' :: d) = _
    exact h5
  have hconv : convertRes (⟨[], "(0-100%) Separator Pressure Transmitter".data,
      'P' :: 'I' :: 'T' :: '-' :: d, []⟩ : IoRow) =
      ('P' :: 'I' :: 'T' :: '-' :: d, none, false) := by
    unfold convertRes
    rw [hrow5]
    rfl
  have hfin : finalTagId (⟨[], "(0-100%) Separator Pressure Transmitter".data,
      'P' :: 'I' :: 'T' :: '-' :: d, []⟩ : IoRow) = 'P' :: 'I' :: 'T' :: '-' :: d := by
    unfold finalTagId
    rw [hconv]
    rfl
  have haSw : alarmSw (⟨[], "(0-100%) Separator Pressure Transmitter".data,
      'P' :: 'I' :: 'T' :: '-' :: d, []⟩ : IoRow) = (none, false) := by
    unfold alarmSw
    rw [hconv]
    rfl
  have heq : eqTypeOf (⟨[], "(0-100%) Separator Pressure Transmitter".data,
      'P' :: 'I' :: 'T' :: '-' :: d, []⟩ : IoRow) = EqType.generic := by
    unfold eqTypeOf
    rw [hfin]
    rfl
  have h3 : tagStep3 (⟨[], "(0-100%) Separator Pressure Transmitter".data,
      'P' :: 'I' :: 'T' :: '-' :: d, []⟩ : IoRow) =
      (some ('P' :: 'I' :: 'T' :: '-' :: d),
       "(0-100%) Separator Pressure Transmitter".data) := rfl
  have hday : detect_day_volume ([] : Str)
      "(0-100%) Separator Pressure Transmitter".data = none := by decide
  have hhoa : detect_hoa_pattern
      "(0-100%) Separator Pressure Transmitter".data = false := by decide
  have hperm : detect_permissive_pattern
      "(0-100%) Separator Pressure Transmitter".data = false := by decide
  have hsp : setpointBranchCond
      "(0-100%) Separator Pressure Transmitter".data = false := by decide
  have haddr : is_alarm_address ([] : Str) = false := by decide
  have hcbp : classify_by_pattern ([] : Str)
      "(0-100%) Separator Pressure Transmitter".data =
      some ⟨"AT".data, "Analysis".data, "Process Value".data, 0⟩ := by decide
  have h6 : classifyStep6 (⟨[], "(0-100%) Separator Pressure Transmitter".data,
      'P' :: 'I' :: 'T' :: '-' :: d, []⟩ : IoRow) =
      ("Process Value".data, [], "(0-100%) Separator Pressure Transmitter".data) := by
    unfold classifyStep6
    rw [h3, haSw, heq]
    dsimp only
    rw [hday, hcbp]
    rw [if_neg (by simp [hhoa]), if_neg (by simp [hperm]),
        if_neg (fun hc => absurd hc.1 (by decide)),
        if_neg (fun hc => absurd hc.1 (by decide)),
        if_neg (by simp [hsp]), if_neg (by simp [haddr])]
  have hstrip : strip_scaling_range
      "(0-100%) Separator Pressure Transmitter".data = "Separator Pressure".data := by
    decide
  have hcap : capitalize_proper "Separator Pressure".data =
      "Separator Pressure".data := by decide
  have hen : enhance_with_isa_measurement "Separator Pressure".data
      ('P' :: 'I' :: 'T' :: '-' :: d) = "Separator Pressure".data := by
    unfold enhance_with_isa_measurement
    rw [if_neg (fun hc => by
      rcases hc with hc | hc
      · exact absurd hc (by simp)
      · exact absurd hc (by decide))]
    dsimp only
    rw [if_pos (show hasChar '-' ('P' :: 'I' :: 'T' :: '-' :: d) = true from rfl)]
    rw [show beforeFirst '-' ('P' :: 'I' :: 'T' :: '-' :: d) = ['P', 'I', 'T'] from rfl]
    decide
  show (process_io_to_mtl _).equipment_description = _
  unfold process_io_to_mtl
  rw [h6, haSw, hfin]
  dsimp only
  rw [if_neg (show ¬((none : Option Str) ≠ none) from fun h => h rfl)]
  rw [hstrip, hen]
  rw [if_pos (by decide)]
  rw [hcap]

/-- Witness for C9 with the tag `PIT-101`. -/
theorem C9_witness :
    ("101".data ≠ [] ∧ ∀ c ∈ "101".data, c ∈ "0123456789".data) ∧
    (process_io_to_mtl ⟨[], "(0-100%) Separator Pressure Transmitter".data,
        'P' :: 'I' :: 'T' :: '-' :: "101".data, []⟩).equipment_description =
      "Separator Pressure".data :=
  ⟨⟨by decide, by decide⟩, C9_scaling_strip "101".data (by decide) (by decide)⟩

/-- Claim C10: for every record that reaches the ISA free-text fallback of
    the enhanced pipeline — no day-volume, HOA, permissive, motor, valve,
    alarm-level, setpoint, or alarm-address match — whose description or
    address contains the two-letter sequence `AT` and contains no alarm-code
    or switch-code substring, `classify_by_pattern` matches an ISA
    transmitter pattern as a plain substring and returns the classification
    "Process Value", which the pipeline adopts as the final
    `target_name_description`. -/
theorem C10_at_process_value (row : IoRow)
    (hday : detect_day_volume row.address row.description = none)
    (hhoa : detect_hoa_pattern row.description = false)
    (hperm : detect_permissive_pattern row.description = false)
    (hlvl : (alarmSw row).1 = none)
    (hmot : eqTypeOf row ≠ EqType.motor)
    (hvlv : eqTypeOf row ≠ EqType.valve)
    (hsp : setpointBranchCond row.description = false)
    (haddr : is_alarm_address row.address = false)
    (hcodes : ∀ p ∈ ALARM_PATTERNS ++ SWITCH_PATTERNS,
        containsSub p.1 (upper row.description) = false ∧
        containsSub p.1 (upper row.address) = false)
    (hat : (containsSub "AT".data (upper row.description) ||
            containsSub "AT".data (upper row.address)) = true) :
    (Option.map Classification.descr
        (classify_by_pattern row.address row.description) =
      some "Process Value".data) ∧
    (process_io_to_mtl row).target_name_description = "Process Value".data := by
  have hfp : findPattern (upper row.description) (upper row.address)
      sortedAlarmSwitchPatterns = none :=
    findPattern_none _ _ _ (fun p hp => hcodes p (mem_sortLenDesc hp))
  have hsome : (findSimple (upper row.description) (upper row.address)
      "Process Value".data TRANSMITTER_PATTERNS).isSome = true :=
    findSimple_isSome _ _ _ ("AT".data, "Analysis".data) hat _ (by decide)
  obtain ⟨c, hc⟩ := Option.isSome_iff_exists.mp hsome
  have hdescr : c.descr = "Process Value".data := findSimple_descr _ _ _ _ _ hc
  have hcbp : classify_by_pattern row.address row.description = some c := by
    unfold classify_by_pattern
    dsimp only
    rw [hfp, hc]
  refine ⟨by rw [hcbp]; simp [hdescr], ?_⟩
  have h6 : (classifyStep6 row).1 = "Process Value".data := by
    unfold classifyStep6
    dsimp only
    rw [hday, hlvl, hcbp]
    rw [if_neg (by simp [hhoa]), if_neg (by simp [hperm]),
        if_neg (fun hcc => hmot hcc.1), if_neg (fun hcc => hvlv hcc.1),
        if_neg (by simp [hsp]), if_neg (by simp [haddr])]
    dsimp only
    exact hdescr
  show finalTND row = _
  unfold finalTND
  rw [h6]
  rw [show validate_target_name "Process Value".data = "Process Value".data from
        by decide]
  rw [if_neg (fun hcc => by rcases hcc.1 with h1 | h1 <;> exact absurd h1 (by decide))]

/-- Witness for C10: the record with empty address and description
    `"WATER TANK"` (the `AT` sits inside `WATER`). -/
theorem C10_witness :
    containsSub "AT".data (upper "WATER TANK".data) = true ∧
    ((Option.map Classification.descr
        (classify_by_pattern ([] : Str) "WATER TANK".data) =
      some "Process Value".data) ∧
    (process_io_to_mtl ⟨[], "WATER TANK".data, [], []⟩).target_name_description =
      "Process Value".data) :=
  ⟨by decide,
   C10_at_process_value ⟨[], "WATER TANK".data, [], []⟩ (by decide) (by decide)
     (by decide) (by decide) (by decide) (by decide) (by decide) (by decide)
     (by decide) (by decide)⟩

end CrcMtl
